import Mathlib

/-!
# Cryptomoji transaction handler (`processor/handler.js`)

A shallow embedding of the Sawtooth transaction handler `MojiHandler` and of the
helpers defined next to it (`checkCollectionsExists`, `createCollection`,
`selectSire`, `getMojiAddressses`, `createMojies`, `dna1..3`, `mojie1..3`).

* Strings are Lean strings, buffers are lists of byte values.
* Plain JS objects used as maps (`update`, the result of `getState`) are insertion
  ordered association lists with unique keys (`objSet` / `objGet`).
* The state context handed to `apply` is an explicit `Context`: the store it reads
  and writes, together with the log of the calls made on it.  A promise chain is
  the sequential threading of that context; a rejected promise is `Except.error`.
* `sha512`, the payload codec (`./services/encoding`) and the address codec
  (`./services/addressing`) live outside `handler.js`; they are the fields of `Env`.
-/

namespace Cryptomoji

set_option maxRecDepth 100000

/-! ## Data model -/

/-- Contents of a Node `Buffer`: a list of byte values. -/
abbrev Bytes := List Nat

/-- A state address (a hex string produced by the address codec). -/
abbrev Address := String

/-- The object literal returned by `mojie1`, `mojie2` and `mojie3`. -/
structure Moji where
  dna : String
  owner : String
  breeder : String
  sire : String
  bred : List String
  sired : List String
deriving DecidableEq, Repr

/-- The object literal `collection` of `createCollection`: `{ key, moji }`. -/
structure Collection where
  key : String
  moji : List Address
deriving DecidableEq, Repr

/-- The object literal `sireListing` of `selectSire`: `{ owner, sire }`. -/
structure SireListing where
  owner : String
  sire : Address
deriving DecidableEq, Repr

/-- The state resources that `handler.js` passes to `encode`. -/
inductive Resource where
  | collection (c : Collection)
  | moji (m : Moji)
  | sireListing (l : SireListing)
deriving DecidableEq, Repr

/-- The two properties of a decoded payload object that the handler reads.
`action` is `some s` when `payload.action` is the string `s` and `none` when it is
absent (or not a string, so `===` to neither tag); `sire` is `some a` when
`payload.sire` is the string `a` and `none` when it is absent. -/
structure Payload where
  action : Option String
  sire : Option String
deriving DecidableEq, Repr

/-- What `decode(txn.payload)` does: throw, return `null` (reading a property of
it throws a `TypeError`), or return a value whose properties can be read. -/
inductive Decoded where
  | threw
  | null
  | object (p : Payload)
deriving DecidableEq, Repr

/-- The transaction process request: `txn.payload`, `txn.header.signerPublicKey`
and `txn.signature`. -/
structure Txn where
  payload : Bytes
  signerPublicKey : String
  signature : String
deriving DecidableEq, Repr

/-- Errors a call of `apply` can end with.  `invalidTransaction message` is
`new InvalidTransaction(message)`, with `none` for a call without argument;
`typeError` is the `TypeError` of reading `.length` of `undefined`. -/
inductive Failure where
  | invalidTransaction (message : Option String)
  | typeError
deriving DecidableEq, Repr

/-- A plain JS object used as a map from addresses to buffers. -/
abbrev Obj := List (Address × Bytes)

/-- One call made on the state context. -/
inductive StoreOp where
  | getState (addresses : List Address)
  | setState (update : Obj)
deriving DecidableEq, Repr

/-- The state store: every address maps to its data, empty when nothing is stored. -/
abbrev Store := Address → Bytes

/-- The state context during one call of `apply`: the store and the calls made so far. -/
structure Context where
  store : Store
  log : List StoreOp

/-- The functions `handler.js` imports: `createHash('sha512')…digest('hex')`,
`encode` / `decode` of `./services/encoding`, and the three address functions of
`./services/addressing`. -/
structure Env where
  sha512hex : String → String
  encode : Resource → Bytes
  decode : Bytes → Decoded
  getCollectionAddress : String → Address
  getMojiAddress : String → String → Address
  getSireAddress : String → Address

/-- Outcome of a promise returned by the handler: the context after the calls it
made, and the value it resolved with or the error it rejected with. -/
abbrev Settled := Context × Except Failure (List Address)

/-! ## JS objects as maps -/

/-- Assignment `o[k] = v`: overwrite the entry of an existing key in place,
append a new key at the end. -/
def objSet : Obj → Address → Bytes → Obj
  | [], k, v => [(k, v)]
  | (k', v') :: rest, k, v =>
    if k' = k then (k', v) :: rest else (k', v') :: objSet rest k v

/-- Property read `o[k]`: `none` stands for `undefined`. -/
def objGet : Obj → Address → Option Bytes
  | [], _ => none
  | (k', v') :: rest, k => if k' = k then some v' else objGet rest k

/-- The keys of an object, as `Object.keys` lists them. -/
def objKeys (o : Obj) : List Address := o.map Prod.fst

/-! ## The state context -/

/-- The call `context.getState(addresses)`: logged, resolves with an object
holding the data of every requested address. -/
def getState (ctx : Context) (addresses : List Address) : Context × Obj :=
  ({ ctx with log := ctx.log ++ [StoreOp.getState addresses] },
   addresses.map fun a => (a, ctx.store a))

/-- The store after the entries of `update` have been written over it. -/
def writeAll (store : Store) (update : Obj) : Store :=
  fun a => match objGet update a with
    | some v => v
    | none => store a

/-- The call `context.setState(update)`: logged, writes every entry and resolves
with the updated addresses. -/
def setState (ctx : Context) (update : Obj) : Settled :=
  ({ store := writeAll ctx.store update,
     log := ctx.log ++ [StoreOp.setState update] },
   Except.ok (objKeys update))

/-! ## DNA chain and moji constructors -/

/-- The JS call `s.slice(0, n)` on a string. -/
def slice0 (s : String) (n : Nat) : String := ⟨s.data.take n⟩

/-- Source `dna1`. -/
def dna1 (E : Env) (signature : String) : String :=
  slice0 (E.sha512hex signature) 36

/-- Source `dna2`. -/
def dna2 (E : Env) (dna1 : String) : String :=
  slice0 (E.sha512hex dna1) 36

/-- Source `dna3`. -/
def dna3 (E : Env) (dna2 : String) : String :=
  slice0 (E.sha512hex dna2) 36

/-- Source `mojie1`. -/
def mojie1 (E : Env) (signature publicKey : String) : Moji :=
  { dna := dna1 E signature
    owner := publicKey
    breeder := "<string, moji address>"
    sire := "<string, moji address>"
    bred := ["<strings, moji addresses>"]
    sired := ["<strings, moji addresses>"] }

/-- Source `mojie2`. -/
def mojie2 (E : Env) (signature publicKey : String) : Moji :=
  { dna := dna2 E (dna1 E signature)
    owner := publicKey
    breeder := "<string, moji address>"
    sire := "<string, moji address>"
    bred := ["<strings, moji addresses>"]
    sired := ["<strings, moji addresses>"] }

/-- Source `mojie3`. -/
def mojie3 (E : Env) (signature publicKey : String) : Moji :=
  { dna := dna3 E (dna2 E (dna1 E signature))
    owner := publicKey
    breeder := "<string, moji address>"
    sire := "<string, moji address>"
    bred := ["<strings, moji addresses>"]
    sired := ["<strings, moji addresses>"] }

/-- The three DNA strings derived from a signature, in the order of `createMojies`. -/
def dnaChain (E : Env) (signature : String) : List String :=
  [dna1 E signature, dna2 E (dna1 E signature), dna3 E (dna2 E (dna1 E signature))]

/-- Source `getMojiAddressses`. -/
def getMojiAddressses (E : Env) (publicKey signature : String) : List Address :=
  [ E.getMojiAddress publicKey (mojie1 E signature publicKey).dna,
    E.getMojiAddress publicKey (mojie2 E signature publicKey).dna,
    E.getMojiAddress publicKey (mojie3 E signature publicKey).dna ]

/-- Source `createMojies`. -/
def createMojies (E : Env) (signature publicKey : String) : List Moji :=
  [mojie1 E signature publicKey, mojie2 E signature publicKey, mojie3 E signature publicKey]

/-- Lower-case hexadecimal digit, the alphabet of `digest('hex')`. -/
def isHexDigit (c : Char) : Bool :=
  ('0' ≤ c && c ≤ '9') || ('a' ≤ c && c ≤ 'f')

/-- A string made of hexadecimal digits only. -/
def isHex (s : String) : Bool := s.data.all isHexDigit

/-! ## The handler -/

/-- Source `createCollection`. -/
def createCollection (E : Env) (ctx : Context) (txn : Txn) : Settled :=
  let publicKey := txn.signerPublicKey
  let address := E.getCollectionAddress publicKey
  let (ctx1, state) := getState ctx [address]
  match objGet state address with
  | none => (ctx1, Except.error Failure.typeError)
  | some data =>
    if data.length > 0 then
      (ctx1, Except.error (Failure.invalidTransaction (some "Owner already exists")))
    else
      let mojiesAddresses := getMojiAddressses E publicKey txn.signature
      let collection : Collection := { key := publicKey, moji := mojiesAddresses }
      let update : Obj := []
      let update := objSet update address (E.encode (Resource.collection collection))
      let update := objSet update (mojiesAddresses.getD 0 "undefined")
        (E.encode (Resource.moji (mojie1 E txn.signature publicKey)))
      let update := objSet update (mojiesAddresses.getD 1 "undefined")
        (E.encode (Resource.moji (mojie2 E txn.signature publicKey)))
      let update := objSet update (mojiesAddresses.getD 2 "undefined")
        (E.encode (Resource.moji (mojie3 E txn.signature publicKey)))
      setState ctx1 update

/-- The object `update` that `createCollection` has built when it calls `setState`. -/
def collectionUpdate (E : Env) (txn : Txn) : Obj :=
  objSet (objSet (objSet (objSet []
    (E.getCollectionAddress txn.signerPublicKey)
    (E.encode (Resource.collection
      { key := txn.signerPublicKey,
        moji := getMojiAddressses E txn.signerPublicKey txn.signature })))
    (E.getMojiAddress txn.signerPublicKey (dna1 E txn.signature))
    (E.encode (Resource.moji (mojie1 E txn.signature txn.signerPublicKey))))
    (E.getMojiAddress txn.signerPublicKey (dna2 E (dna1 E txn.signature)))
    (E.encode (Resource.moji (mojie2 E txn.signature txn.signerPublicKey))))
    (E.getMojiAddress txn.signerPublicKey (dna3 E (dna2 E (dna1 E txn.signature))))
    (E.encode (Resource.moji (mojie3 E txn.signature txn.signerPublicKey)))

/-- Source `selectSire`. -/
def selectSire (E : Env) (sireAddress : Address) (txn : Txn) (ctx : Context) : Settled :=
  let publicKey := txn.signerPublicKey
  let address := E.getSireAddress publicKey
  let (ctx1, sireAddressState) := getState ctx [sireAddress]
  match objGet sireAddressState sireAddress with
  | none => (ctx1, Except.error Failure.typeError)
  | some data =>
    if data.length > 0 then
      let (ctx2, _state) := getState ctx1 [address]
      let update : Obj := []
      let sireListing : SireListing := { owner := publicKey, sire := sireAddress }
      let update := objSet update address (E.encode (Resource.sireListing sireListing))
      setState ctx2 update
    else
      (ctx1, Except.error (Failure.invalidTransaction none))

/-- Truthiness of `payload.sire`: a non-empty string; `undefined` and `''` are falsy. -/
def truthy : Option String → Bool
  | some s => s != ""
  | none => false

/-- Source `checkCollectionsExists`. -/
def checkCollectionsExists (E : Env) (ctx : Context) (txn : Txn) (payload : Payload) : Settled :=
  let address := E.getCollectionAddress txn.signerPublicKey
  let (ctx1, state) := getState ctx [address]
  match objGet state address with
  | none => (ctx1, Except.error Failure.typeError)
  | some data =>
    if data.length > 0 && truthy payload.sire then
      selectSire E (payload.sire.getD "") txn ctx1
    else
      (ctx1, Except.error (Failure.invalidTransaction none))

/-- Source `MojiHandler.apply`.  The `try` block catches what is thrown while it
runs: an exception of `decode`, and the `TypeError` of reading `payload.action`
when `decode` returned `null`.  A rejection raised inside a `.then` callback of
`createCollection` or `checkCollectionsExists` settles the returned promise and
is not seen by the `catch`. -/
def apply (E : Env) (txn : Txn) (ctx : Context) : Settled :=
  match E.decode txn.payload with
  | Decoded.threw =>
    (ctx, Except.error (Failure.invalidTransaction (some "Unable to decode payload")))
  | Decoded.null =>
    (ctx, Except.error (Failure.invalidTransaction (some "Unable to decode payload")))
  | Decoded.object payload =>
    if payload.action = some "CREATE_COLLECTION" then
      createCollection E ctx txn
    else if payload.action = some "SELECT_SIRE" then
      checkCollectionsExists E ctx txn payload
    else
      (ctx, Except.error (Failure.invalidTransaction (some "Unknown action")))

/-- The context a call of `apply` starts with: the current store, no call made yet. -/
def freshContext (store : Store) : Context := { store := store, log := [] }

/-- The store left behind by one call of `apply`. -/
def commit (E : Env) (store : Store) (txn : Txn) : Store :=
  (apply E txn (freshContext store)).1.store

/-- The store left behind by a sequence of calls of `apply`, oldest first. -/
def commitAll (E : Env) (store : Store) (txns : List Txn) : Store :=
  txns.foldl (commit E) store

/-- The store in which no address holds data. -/
def emptyStore : Store := fun _ => []

/-! ## A small concrete environment

Stand-ins for the imported functions, used to evaluate the handler on concrete
transactions: a checksum in place of SHA-512, a tagged byte dump in place of the
JSON codec, and prefix-tagged addresses. -/

/-- Hex digit of a number below 16. -/
def hexChar (n : Nat) : Char :=
  "0123456789abcdef".data.getD (n % 16) '0'

/-- A 128-digit stand-in digest: three checksum digits followed by zeros. -/
def demoDigest (x : String) : String :=
  let n := x.data.foldl (fun acc c => (acc * 31 + c.toNat) % 4096) 7
  ⟨[hexChar (n / 256), hexChar (n / 16), hexChar n] ++ List.replicate 125 '0'⟩

/-- Byte dump of a string. -/
def demoBytes (s : String) : Bytes := s.data.map Char.toNat

/-- A stand-in encoder: a tag byte followed by the dumped fields; a sire listing
also carries the length of its owner, so that its two fields can be told apart. -/
def demoEncode : Resource → Bytes
  | Resource.collection c => 1 :: (demoBytes c.key ++ (c.moji.map demoBytes).flatten)
  | Resource.moji m => 2 :: (demoBytes m.dna ++ demoBytes m.owner)
  | Resource.sireListing l =>
    3 :: l.owner.length :: (demoBytes l.owner ++ demoBytes l.sire)

/-- A stand-in decoder: `[1]` is a CREATE_COLLECTION payload, `2 :: a` a
SELECT_SIRE payload with sire `a`, `[3]` a SELECT_SIRE payload without sire,
`[0]` decodes to `null`, `[4]` to an object without action, anything else throws. -/
def demoDecode : Bytes → Decoded
  | [0] => Decoded.null
  | [1] => Decoded.object { action := some "CREATE_COLLECTION", sire := none }
  | 2 :: a => Decoded.object
      { action := some "SELECT_SIRE", sire := some ⟨a.map Char.ofNat⟩ }
  | [3] => Decoded.object { action := some "SELECT_SIRE", sire := none }
  | [4] => Decoded.object { action := none, sire := none }
  | _ => Decoded.threw

/-- The concrete environment. -/
def demoEnv : Env where
  sha512hex := demoDigest
  encode := demoEncode
  decode := demoDecode
  getCollectionAddress := fun pk => "5f4d76" ++ "00" ++ pk
  getMojiAddress := fun pk dna => "5f4d76" ++ "01" ++ pk ++ dna
  getSireAddress := fun pk => "5f4d76" ++ "02" ++ pk

/-- The concrete environment with a digest that maps every input to the same
128 digits, so that the three DNA strings of a signature coincide. -/
def collidingEnv : Env :=
  { demoEnv with sha512hex := fun _ => ⟨List.replicate 128 '0'⟩ }

/-- The concrete environment with addresses of fixed length: the 8 characters of
namespace and subtype followed by 62 digest characters (for a moji, 8 of the
owner's digest and 54 of the digest of the dna). -/
def fixedEnv : Env :=
  { demoEnv with
    getCollectionAddress := fun pk => "5f4d76" ++ "00" ++ slice0 (demoDigest pk) 62
    getMojiAddress := fun pk dna =>
      "5f4d76" ++ "01" ++ slice0 (demoDigest pk) 8 ++ slice0 (demoDigest dna) 54
    getSireAddress := fun pk => "5f4d76" ++ "02" ++ slice0 (demoDigest pk) 62 }

/-- A CREATE_COLLECTION transaction of signer `pub2`. -/
def demoCreateOther : Txn :=
  { payload := [1], signerPublicKey := "pub2", signature := "77c0de" }

/-- A CREATE_COLLECTION transaction of signer `pub1`. -/
def demoCreate : Txn := { payload := [1], signerPublicKey := "pub1", signature := "abc123" }

/-- A second CREATE_COLLECTION transaction of signer `pub1`, with another signature. -/
def demoCreateAgain : Txn := { payload := [1], signerPublicKey := "pub1", signature := "ffee" }

/-- A SELECT_SIRE transaction of signer `pub1` whose sire is the address `addr`. -/
def demoSelect (addr : Address) : Txn :=
  { payload := 2 :: demoBytes addr, signerPublicKey := "pub1", signature := "9d01" }

/-- A SELECT_SIRE transaction of signer `pub1` whose payload has no sire field. -/
def demoSelectNoSire : Txn := { payload := [3], signerPublicKey := "pub1", signature := "9d02" }

/-- A transaction of signer `pub1` whose payload decodes to `null`. -/
def demoNull : Txn := { payload := [0], signerPublicKey := "pub1", signature := "9d03" }

/-- A transaction of signer `pub1` whose payload decodes to an object without action. -/
def demoNoAction : Txn := { payload := [4], signerPublicKey := "pub1", signature := "9d04" }

/-- A transaction of signer `pub1` whose payload cannot be decoded. -/
def demoGarbled : Txn := { payload := [9, 9], signerPublicKey := "pub1", signature := "9d05" }

/-- A store holding one byte at each of the listed addresses and nothing elsewhere. -/
def demoStore (addresses : List Address) : Store :=
  fun a => if a ∈ addresses then [1] else []

/-! ## Objects: reading after writing -/

theorem objGet_objSet_same (o : Obj) (k : Address) (v : Bytes) :
    objGet (objSet o k v) k = some v := by
  induction o with
  | nil => simp [objSet, objGet]
  | cons e rest ih =>
    obtain ⟨k', v'⟩ := e
    by_cases h : k' = k
    · simp [objSet, objGet, h]
    · simp [objSet, objGet, h, ih]

theorem objGet_objSet_ne (o : Obj) (k a : Address) (v : Bytes) (h : k ≠ a) :
    objGet (objSet o k v) a = objGet o a := by
  induction o with
  | nil => simp [objSet, objGet, h]
  | cons e rest ih =>
    obtain ⟨k', v'⟩ := e
    by_cases hk : k' = k
    · subst hk
      simp [objSet, objGet, h]
    · by_cases ha : k' = a
      · subst ha
        simp [objSet, objGet, hk]
      · simp [objSet, objGet, hk, ha, ih]

theorem objGet_objSet_cases (o : Obj) (k a : Address) (v : Bytes) :
    objGet (objSet o k v) a = some v ∨ objGet (objSet o k v) a = objGet o a := by
  by_cases h : k = a
  · subst h
    exact Or.inl (objGet_objSet_same o k v)
  · exact Or.inr (objGet_objSet_ne o k a v h)

/-! ## The handler, path by path -/

theorem length_pos_iff_ne_nil (data : Bytes) : data.length > 0 ↔ data ≠ [] := by
  cases data <;> simp

theorem apply_createCollection (E : Env) (txn : Txn) (ctx : Context) (p : Payload)
    (hDec : E.decode txn.payload = Decoded.object p)
    (hAct : p.action = some "CREATE_COLLECTION") :
    apply E txn ctx = createCollection E ctx txn := by
  simp [apply, hDec, hAct]

theorem apply_selectSire (E : Env) (txn : Txn) (ctx : Context) (p : Payload)
    (hDec : E.decode txn.payload = Decoded.object p)
    (hAct : p.action = some "SELECT_SIRE") :
    apply E txn ctx = checkCollectionsExists E ctx txn p := by
  simp [apply, hDec, hAct]

theorem createCollection_exists (E : Env) (txn : Txn) (σ : Store)
    (hOwn : σ (E.getCollectionAddress txn.signerPublicKey) ≠ []) :
    createCollection E (freshContext σ) txn =
      ({ store := σ,
         log := [StoreOp.getState [E.getCollectionAddress txn.signerPublicKey]] },
       Except.error (Failure.invalidTransaction (some "Owner already exists"))) := by
  have h := (length_pos_iff_ne_nil _).2 hOwn
  simp [createCollection, getState, objGet, freshContext, h]

theorem createCollection_new (E : Env) (txn : Txn) (σ : Store)
    (hNew : σ (E.getCollectionAddress txn.signerPublicKey) = []) :
    createCollection E (freshContext σ) txn =
      ({ store := writeAll σ (collectionUpdate E txn),
         log := [StoreOp.getState [E.getCollectionAddress txn.signerPublicKey],
                 StoreOp.setState (collectionUpdate E txn)] },
       Except.ok (objKeys (collectionUpdate E txn))) := by
  simp [createCollection, getState, objGet, freshContext, hNew, setState, collectionUpdate,
    getMojiAddressses, mojie1, mojie2, mojie3]

theorem checkCollectionsExists_empty (E : Env) (txn : Txn) (σ : Store) (p : Payload)
    (hNone : σ (E.getCollectionAddress txn.signerPublicKey) = []) :
    checkCollectionsExists E (freshContext σ) txn p =
      ({ store := σ,
         log := [StoreOp.getState [E.getCollectionAddress txn.signerPublicKey]] },
       Except.error (Failure.invalidTransaction none)) := by
  simp [checkCollectionsExists, getState, objGet, freshContext, hNone]

theorem checkCollectionsExists_falsy (E : Env) (txn : Txn) (σ : Store) (p : Payload)
    (hSire : truthy p.sire = false) :
    checkCollectionsExists E (freshContext σ) txn p =
      ({ store := σ,
         log := [StoreOp.getState [E.getCollectionAddress txn.signerPublicKey]] },
       Except.error (Failure.invalidTransaction none)) := by
  simp [checkCollectionsExists, getState, objGet, freshContext, hSire]

theorem checkCollectionsExists_pass (E : Env) (txn : Txn) (σ : Store) (p : Payload)
    (a : Address) (hSire : p.sire = some a) (ha : a ≠ "")
    (hOwn : σ (E.getCollectionAddress txn.signerPublicKey) ≠ []) :
    checkCollectionsExists E (freshContext σ) txn p =
      selectSire E a txn
        { store := σ,
          log := [StoreOp.getState [E.getCollectionAddress txn.signerPublicKey]] } := by
  have h := (length_pos_iff_ne_nil _).2 hOwn
  simp [checkCollectionsExists, getState, objGet, freshContext, hSire, truthy, ha, h]

theorem selectSire_missing (E : Env) (txn : Txn) (ctx : Context) (a : Address)
    (hNone : ctx.store a = []) :
    selectSire E a txn ctx =
      ({ store := ctx.store, log := ctx.log ++ [StoreOp.getState [a]] },
       Except.error (Failure.invalidTransaction none)) := by
  simp [selectSire, getState, objGet, hNone]

theorem selectSire_found (E : Env) (txn : Txn) (ctx : Context) (a : Address)
    (hSome : ctx.store a ≠ []) :
    selectSire E a txn ctx =
      ({ store := writeAll ctx.store
           [(E.getSireAddress txn.signerPublicKey,
             E.encode (Resource.sireListing { owner := txn.signerPublicKey, sire := a }))],
         log := ctx.log ++
           [StoreOp.getState [a],
            StoreOp.getState [E.getSireAddress txn.signerPublicKey],
            StoreOp.setState
              [(E.getSireAddress txn.signerPublicKey,
                E.encode (Resource.sireListing { owner := txn.signerPublicKey, sire := a }))]] },
       Except.ok [E.getSireAddress txn.signerPublicKey]) := by
  have h := (length_pos_iff_ne_nil _).2 hSome
  simp [selectSire, getState, objGet, setState, objSet, objKeys, h]

/-! ## The update of `createCollection` -/

theorem objGet_objSet_agree (o : Obj) (k a : Address) (v w : Bytes)
    (hAgree : k = a → v = w) (hGet : objGet o a = some w) :
    objGet (objSet o k v) a = some w := by
  by_cases h : k = a
  · subst h
    rw [objGet_objSet_same, hAgree rfl]
  · rw [objGet_objSet_ne o k a v h, hGet]

theorem collectionUpdate_distinct (E : Env) (txn : Txn)
    (hDistinct : (E.getCollectionAddress txn.signerPublicKey ::
      getMojiAddressses E txn.signerPublicKey txn.signature).Nodup) :
    collectionUpdate E txn =
      [(E.getCollectionAddress txn.signerPublicKey,
        E.encode (Resource.collection
          { key := txn.signerPublicKey,
            moji := getMojiAddressses E txn.signerPublicKey txn.signature })),
       (E.getMojiAddress txn.signerPublicKey (dna1 E txn.signature),
        E.encode (Resource.moji (mojie1 E txn.signature txn.signerPublicKey))),
       (E.getMojiAddress txn.signerPublicKey (dna2 E (dna1 E txn.signature)),
        E.encode (Resource.moji (mojie2 E txn.signature txn.signerPublicKey))),
       (E.getMojiAddress txn.signerPublicKey (dna3 E (dna2 E (dna1 E txn.signature))),
        E.encode (Resource.moji (mojie3 E txn.signature txn.signerPublicKey)))] := by
  simp only [getMojiAddressses, mojie1, mojie2, mojie3, List.nodup_cons, List.mem_cons,
    List.mem_singleton, not_or, List.not_mem_nil, not_false_eq_true, List.nodup_nil,
    and_true] at hDistinct
  obtain ⟨⟨h01, h02, h03⟩, ⟨h12, h13⟩, h23⟩ := hDistinct
  simp [collectionUpdate, objSet, h01, h02, h03, h12, h13, h23, getMojiAddressses,
    mojie1, mojie2, mojie3]

theorem collectionUpdate_encoded (E : Env) (txn : Txn) (a : Address) (v : Bytes)
    (hGet : objGet (collectionUpdate E txn) a = some v) :
    ∃ r, v = E.encode r := by
  unfold collectionUpdate at hGet
  rcases objGet_objSet_cases _ _ a _ with h | h <;> rw [h] at hGet
  · exact ⟨_, (Option.some.inj hGet).symm⟩
  rcases objGet_objSet_cases _ _ a _ with h | h <;> rw [h] at hGet
  · exact ⟨_, (Option.some.inj hGet).symm⟩
  rcases objGet_objSet_cases _ _ a _ with h | h <;> rw [h] at hGet
  · exact ⟨_, (Option.some.inj hGet).symm⟩
  rcases objGet_objSet_cases _ _ a _ with h | h <;> rw [h] at hGet
  · exact ⟨_, (Option.some.inj hGet).symm⟩
  · simp [objGet] at hGet

theorem collectionUpdate_at_collection (E : Env) (txn : Txn) :
    ∃ r, objGet (collectionUpdate E txn) (E.getCollectionAddress txn.signerPublicKey)
      = some (E.encode r) := by
  cases hGet : objGet (collectionUpdate E txn) (E.getCollectionAddress txn.signerPublicKey) with
  | some v =>
    obtain ⟨r, hr⟩ := collectionUpdate_encoded E txn _ v hGet
    exact ⟨r, by rw [hr]⟩
  | none =>
    exfalso
    unfold collectionUpdate at hGet
    rcases objGet_objSet_cases _ _ (E.getCollectionAddress txn.signerPublicKey) _ with h | h
      <;> rw [h] at hGet
    · cases hGet
    rcases objGet_objSet_cases _ _ (E.getCollectionAddress txn.signerPublicKey) _ with h | h
      <;> rw [h] at hGet
    · cases hGet
    rcases objGet_objSet_cases _ _ (E.getCollectionAddress txn.signerPublicKey) _ with h | h
      <;> rw [h] at hGet
    · cases hGet
    rw [objGet_objSet_same] at hGet
    cases hGet

/-! ## What one call of `apply` can do to an address -/

theorem writeAll_apply (σ : Store) (update : Obj) (a : Address) :
    writeAll σ update a = (objGet update a).getD (σ a) := by
  unfold writeAll
  cases objGet update a <;> rfl

theorem commit_cases (E : Env) (σ : Store) (txn : Txn) (a : Address) :
    commit E σ txn a = σ a ∨ ∃ r, commit E σ txn a = E.encode r := by
  unfold commit
  cases hDec : E.decode txn.payload with
  | threw => left; simp [apply, hDec, freshContext]
  | null => left; simp [apply, hDec, freshContext]
  | object p =>
    by_cases hCreate : p.action = some "CREATE_COLLECTION"
    · rw [apply_createCollection E txn _ p hDec hCreate]
      by_cases hOwn : σ (E.getCollectionAddress txn.signerPublicKey) = []
      · rw [createCollection_new E txn σ hOwn]
        simp only [writeAll_apply]
        cases hGet : objGet (collectionUpdate E txn) a with
        | none => left; rfl
        | some v =>
          obtain ⟨r, hr⟩ := collectionUpdate_encoded E txn a v hGet
          right
          exact ⟨r, by simp [hr]⟩
      · rw [createCollection_exists E txn σ hOwn]
        left; rfl
    · by_cases hSelect : p.action = some "SELECT_SIRE"
      · rw [apply_selectSire E txn _ p hDec hSelect]
        by_cases hOwn : σ (E.getCollectionAddress txn.signerPublicKey) = []
        · rw [checkCollectionsExists_empty E txn σ p hOwn]
          left; rfl
        · by_cases hTruthy : truthy p.sire = false
          · rw [checkCollectionsExists_falsy E txn σ p hTruthy]
            left; rfl
          · cases hSire : p.sire with
            | none => simp [hSire, truthy] at hTruthy
            | some s =>
              have hs : s ≠ "" := by
                intro h
                simp [hSire, truthy, h] at hTruthy
              rw [checkCollectionsExists_pass E txn σ p s hSire hs hOwn]
              by_cases hData : σ s = []
              · rw [selectSire_missing E txn _ s hData]
                left; rfl
              · rw [selectSire_found E txn _ s hData]
                simp only [writeAll_apply]
                by_cases hEq : E.getSireAddress txn.signerPublicKey = a
                · right
                  exact ⟨Resource.sireListing { owner := txn.signerPublicKey, sire := s },
                    by simp [objGet, hEq]⟩
                · left
                  simp [objGet, hEq]
      · left
        simp [apply, hDec, hCreate, hSelect, freshContext]

theorem commit_ne_nil (E : Env) (hEnc : ∀ r, E.encode r ≠ []) (σ : Store) (txn : Txn)
    (a : Address) (h : σ a ≠ []) : commit E σ txn a ≠ [] := by
  rcases commit_cases E σ txn a with hc | ⟨r, hc⟩ <;> rw [hc]
  · exact h
  · exact hEnc r

theorem commitAll_ne_nil (E : Env) (hEnc : ∀ r, E.encode r ≠ []) (txns : List Txn)
    (σ : Store) (a : Address) (h : σ a ≠ []) : commitAll E σ txns a ≠ [] := by
  induction txns generalizing σ with
  | nil => exact h
  | cons t rest ih => exact ih (commit E σ t) (commit_ne_nil E hEnc σ t a h)

theorem demoEncode_ne_nil (r : Resource) : demoEnv.encode r ≠ [] := by
  cases r <;> simp [demoEnv, demoEncode]

theorem apply_select_found (E : Env) (txn : Txn) (σ : Store)
    (p : Payload) (a : Address)
    (hDec : E.decode txn.payload = Decoded.object p)
    (hAct : p.action = some "SELECT_SIRE")
    (hSire : p.sire = some a)
    (ha : a ≠ "")
    (hOwn : σ (E.getCollectionAddress txn.signerPublicKey) ≠ [])
    (hSome : σ a ≠ []) :
    apply E txn (freshContext σ) =
      ({ store := writeAll σ
           [(E.getSireAddress txn.signerPublicKey,
             E.encode (Resource.sireListing { owner := txn.signerPublicKey, sire := a }))],
         log :=
           [StoreOp.getState [E.getCollectionAddress txn.signerPublicKey],
            StoreOp.getState [a],
            StoreOp.getState [E.getSireAddress txn.signerPublicKey],
            StoreOp.setState
              [(E.getSireAddress txn.signerPublicKey,
                E.encode (Resource.sireListing { owner := txn.signerPublicKey, sire := a }))]] },
       Except.ok [E.getSireAddress txn.signerPublicKey]) := by
  rw [apply_selectSire E txn _ p hDec hAct,
    checkCollectionsExists_pass E txn σ p a hSire ha hOwn,
    selectSire_found E txn _ a hSome]
  rfl

theorem apply_create_new (E : Env) (txn : Txn) (σ : Store) (p : Payload)
    (hDec : E.decode txn.payload = Decoded.object p)
    (hAct : p.action = some "CREATE_COLLECTION")
    (hNew : σ (E.getCollectionAddress txn.signerPublicKey) = []) :
    apply E txn (freshContext σ) =
      ({ store := writeAll σ (collectionUpdate E txn),
         log := [StoreOp.getState [E.getCollectionAddress txn.signerPublicKey],
                 StoreOp.setState (collectionUpdate E txn)] },
       Except.ok (objKeys (collectionUpdate E txn))) := by
  rw [apply_createCollection E txn _ p hDec hAct]
  exact createCollection_new E txn σ hNew

theorem apply_create_exists (E : Env) (txn : Txn) (σ : Store) (p : Payload)
    (hDec : E.decode txn.payload = Decoded.object p)
    (hAct : p.action = some "CREATE_COLLECTION")
    (hOwn : σ (E.getCollectionAddress txn.signerPublicKey) ≠ []) :
    apply E txn (freshContext σ) =
      ({ store := σ,
         log := [StoreOp.getState [E.getCollectionAddress txn.signerPublicKey]] },
       Except.error (Failure.invalidTransaction (some "Owner already exists"))) := by
  rw [apply_createCollection E txn _ p hDec hAct]
  exact createCollection_exists E txn σ hOwn

/-! ## Every way a call of `apply` can end -/

theorem apply_undecodable (E : Env) (txn : Txn) (ctx : Context)
    (hDec : E.decode txn.payload = Decoded.threw ∨ E.decode txn.payload = Decoded.null) :
    apply E txn ctx =
      (ctx, Except.error (Failure.invalidTransaction (some "Unable to decode payload"))) := by
  rcases hDec with h | h <;> simp [apply, h]

theorem apply_unknown (E : Env) (txn : Txn) (ctx : Context) (p : Payload)
    (hDec : E.decode txn.payload = Decoded.object p)
    (hCreate : p.action ≠ some "CREATE_COLLECTION")
    (hSelect : p.action ≠ some "SELECT_SIRE") :
    apply E txn ctx =
      (ctx, Except.error (Failure.invalidTransaction (some "Unknown action"))) := by
  simp [apply, hDec, hCreate, hSelect]

theorem apply_select_rejected (E : Env) (txn : Txn) (σ : Store) (p : Payload)
    (hDec : E.decode txn.payload = Decoded.object p)
    (hAct : p.action = some "SELECT_SIRE")
    (hWhy : σ (E.getCollectionAddress txn.signerPublicKey) = [] ∨ truthy p.sire = false) :
    apply E txn (freshContext σ) =
      ({ store := σ,
         log := [StoreOp.getState [E.getCollectionAddress txn.signerPublicKey]] },
       Except.error (Failure.invalidTransaction none)) := by
  rw [apply_selectSire E txn _ p hDec hAct]
  rcases hWhy with h | h
  · exact checkCollectionsExists_empty E txn σ p h
  · exact checkCollectionsExists_falsy E txn σ p h

theorem apply_select_missing (E : Env) (txn : Txn) (σ : Store) (p : Payload) (a : Address)
    (hDec : E.decode txn.payload = Decoded.object p)
    (hAct : p.action = some "SELECT_SIRE")
    (hSire : p.sire = some a) (ha : a ≠ "")
    (hOwn : σ (E.getCollectionAddress txn.signerPublicKey) ≠ [])
    (hNone : σ a = []) :
    apply E txn (freshContext σ) =
      ({ store := σ,
         log := [StoreOp.getState [E.getCollectionAddress txn.signerPublicKey],
                 StoreOp.getState [a]] },
       Except.error (Failure.invalidTransaction none)) := by
  rw [apply_selectSire E txn _ p hDec hAct,
    checkCollectionsExists_pass E txn σ p a hSire ha hOwn,
    selectSire_missing E txn _ a hNone]
  rfl

theorem truthy_cases (sire : Option String) :
    truthy sire = false ∨ ∃ a, sire = some a ∧ a ≠ "" := by
  cases sire with
  | none => left; rfl
  | some a =>
    by_cases h : a = ""
    · left; simp [truthy, h]
    · right; exact ⟨a, rfl, h⟩

/-- The six ways a call of `apply` on a decoded payload object can end. -/
theorem apply_object_cases (E : Env) (txn : Txn) (σ : Store) (p : Payload)
    (hDec : E.decode txn.payload = Decoded.object p) :
    (p.action ≠ some "CREATE_COLLECTION" ∧ p.action ≠ some "SELECT_SIRE" ∧
      apply E txn (freshContext σ) =
        (freshContext σ, Except.error (Failure.invalidTransaction (some "Unknown action")))) ∨
    (p.action = some "CREATE_COLLECTION" ∧
      σ (E.getCollectionAddress txn.signerPublicKey) ≠ [] ∧
      apply E txn (freshContext σ) =
        ({ store := σ,
           log := [StoreOp.getState [E.getCollectionAddress txn.signerPublicKey]] },
         Except.error (Failure.invalidTransaction (some "Owner already exists")))) ∨
    (p.action = some "CREATE_COLLECTION" ∧
      σ (E.getCollectionAddress txn.signerPublicKey) = [] ∧
      apply E txn (freshContext σ) =
        ({ store := writeAll σ (collectionUpdate E txn),
           log := [StoreOp.getState [E.getCollectionAddress txn.signerPublicKey],
                   StoreOp.setState (collectionUpdate E txn)] },
         Except.ok (objKeys (collectionUpdate E txn)))) ∨
    (p.action = some "SELECT_SIRE" ∧
      (σ (E.getCollectionAddress txn.signerPublicKey) = [] ∨ truthy p.sire = false) ∧
      apply E txn (freshContext σ) =
        ({ store := σ,
           log := [StoreOp.getState [E.getCollectionAddress txn.signerPublicKey]] },
         Except.error (Failure.invalidTransaction none))) ∨
    (p.action = some "SELECT_SIRE" ∧ ∃ a, p.sire = some a ∧ a ≠ "" ∧
      σ (E.getCollectionAddress txn.signerPublicKey) ≠ [] ∧ σ a = [] ∧
      apply E txn (freshContext σ) =
        ({ store := σ,
           log := [StoreOp.getState [E.getCollectionAddress txn.signerPublicKey],
                   StoreOp.getState [a]] },
         Except.error (Failure.invalidTransaction none))) ∨
    (p.action = some "SELECT_SIRE" ∧ ∃ a, p.sire = some a ∧ a ≠ "" ∧
      σ (E.getCollectionAddress txn.signerPublicKey) ≠ [] ∧ σ a ≠ [] ∧
      apply E txn (freshContext σ) =
        ({ store := writeAll σ
             [(E.getSireAddress txn.signerPublicKey,
               E.encode (Resource.sireListing { owner := txn.signerPublicKey, sire := a }))],
           log :=
             [StoreOp.getState [E.getCollectionAddress txn.signerPublicKey],
              StoreOp.getState [a],
              StoreOp.getState [E.getSireAddress txn.signerPublicKey],
              StoreOp.setState
                [(E.getSireAddress txn.signerPublicKey,
                  E.encode (Resource.sireListing
                    { owner := txn.signerPublicKey, sire := a }))]] },
         Except.ok [E.getSireAddress txn.signerPublicKey])) := by
  by_cases hCreate : p.action = some "CREATE_COLLECTION"
  · by_cases hOwn : σ (E.getCollectionAddress txn.signerPublicKey) = []
    · exact Or.inr (Or.inr (Or.inl
        ⟨hCreate, hOwn, apply_create_new E txn σ p hDec hCreate hOwn⟩))
    · exact Or.inr (Or.inl ⟨hCreate, hOwn, apply_create_exists E txn σ p hDec hCreate hOwn⟩)
  · by_cases hSelect : p.action = some "SELECT_SIRE"
    · by_cases hOwn : σ (E.getCollectionAddress txn.signerPublicKey) = []
      · exact Or.inr (Or.inr (Or.inr (Or.inl
          ⟨hSelect, Or.inl hOwn, apply_select_rejected E txn σ p hDec hSelect (Or.inl hOwn)⟩)))
      · rcases truthy_cases p.sire with hF | ⟨a, hSire, ha⟩
        · exact Or.inr (Or.inr (Or.inr (Or.inl
            ⟨hSelect, Or.inr hF, apply_select_rejected E txn σ p hDec hSelect (Or.inr hF)⟩)))
        · by_cases hData : σ a = []
          · exact Or.inr (Or.inr (Or.inr (Or.inr (Or.inl
              ⟨hSelect, a, hSire, ha, hOwn, hData,
                apply_select_missing E txn σ p a hDec hSelect hSire ha hOwn hData⟩))))
          · exact Or.inr (Or.inr (Or.inr (Or.inr (Or.inr
              ⟨hSelect, a, hSire, ha, hOwn, hData,
                apply_select_found E txn σ p a hDec hSelect hSire ha hOwn hData⟩))))
    · exact Or.inl ⟨hCreate, hSelect, apply_unknown E txn _ p hDec hCreate hSelect⟩

/-! ## The stand-in digest is a 128-digit hex string -/

theorem isHexDigit_hexChar (n : Nat) : isHexDigit (hexChar n) = true := by
  have h : n % 16 < 16 := Nat.mod_lt _ (by decide)
  unfold hexChar
  interval_cases n % 16 <;> decide

theorem demoDigest_wellFormed (x : String) :
    (demoEnv.sha512hex x).length = 128 ∧ isHex (demoEnv.sha512hex x) = true := by
  constructor
  · simp [demoEnv, demoDigest, String.length]
  · simp [demoEnv, demoDigest, isHex, isHexDigit_hexChar]
    decide

theorem slice0_digest (x : String) (hLen : x.length = 128) (hHex : isHex x = true) :
    (slice0 x 36).length = 36 ∧ isHex (slice0 x 36) = true := by
  constructor
  · simp only [String.length] at hLen
    simp [slice0, String.length, hLen]
  · simp only [isHex, List.all_eq_true] at hHex
    simp only [isHex, slice0, List.all_eq_true]
    intro c hc
    exact hHex c (List.mem_of_mem_take hc)

/-! ## Addresses a transaction leaves alone -/

theorem mem_objSet (o : Obj) (k : Address) (v : Bytes) (entry : Address × Bytes)
    (h : entry ∈ objSet o k v) : entry = (k, v) ∨ entry ∈ o := by
  induction o with
  | nil =>
    simp only [objSet, List.mem_singleton] at h
    exact Or.inl h
  | cons e rest ih =>
    obtain ⟨k', v'⟩ := e
    by_cases hk : k' = k
    · subst hk
      simp only [objSet, if_true, List.mem_cons] at h
      rcases h with h | h
      · exact Or.inl h
      · exact Or.inr (List.mem_cons_of_mem _ h)
    · simp only [objSet, hk, if_false, List.mem_cons] at h
      rcases h with h | h
      · exact Or.inr (by rw [h]; exact List.mem_cons_self _ _)
      · rcases ih h with h' | h'
        · exact Or.inl h'
        · exact Or.inr (List.mem_cons_of_mem _ h')

theorem collectionUpdate_get_none (E : Env) (txn : Txn) (x : Address)
    (hColl : x ≠ E.getCollectionAddress txn.signerPublicKey)
    (hMoji : ∀ d ∈ dnaChain E txn.signature, x ≠ E.getMojiAddress txn.signerPublicKey d) :
    objGet (collectionUpdate E txn) x = none := by
  unfold collectionUpdate
  rw [objGet_objSet_ne _ _ _ _ (Ne.symm (hMoji _ (by simp [dnaChain]))),
    objGet_objSet_ne _ _ _ _ (Ne.symm (hMoji _ (by simp [dnaChain]))),
    objGet_objSet_ne _ _ _ _ (Ne.symm (hMoji _ (by simp [dnaChain]))),
    objGet_objSet_ne _ _ _ _ (Ne.symm hColl)]
  rfl

theorem collectionUpdate_collection_entry (E : Env) (txn : Txn)
    (hSep : ∀ d ∈ dnaChain E txn.signature,
      E.getCollectionAddress txn.signerPublicKey ≠ E.getMojiAddress txn.signerPublicKey d) :
    objGet (collectionUpdate E txn) (E.getCollectionAddress txn.signerPublicKey) =
      some (E.encode (Resource.collection
        { key := txn.signerPublicKey,
          moji := getMojiAddressses E txn.signerPublicKey txn.signature })) := by
  unfold collectionUpdate
  rw [objGet_objSet_ne _ _ _ _ (Ne.symm (hSep _ (by simp [dnaChain]))),
    objGet_objSet_ne _ _ _ _ (Ne.symm (hSep _ (by simp [dnaChain]))),
    objGet_objSet_ne _ _ _ _ (Ne.symm (hSep _ (by simp [dnaChain]))),
    objGet_objSet_same]

/-- A call of `apply` leaves alone every address that is neither the signer's
sire-listing address nor, when the signer has no collection yet, the signer's
collection address or one of the moji addresses of the transaction. -/
theorem commit_untouched (E : Env) (σ : Store) (txn : Txn) (x : Address)
    (hCreate : σ (E.getCollectionAddress txn.signerPublicKey) = [] →
      x ≠ E.getCollectionAddress txn.signerPublicKey ∧
      ∀ d ∈ dnaChain E txn.signature, x ≠ E.getMojiAddress txn.signerPublicKey d)
    (hSire : x ≠ E.getSireAddress txn.signerPublicKey) :
    commit E σ txn x = σ x := by
  unfold commit
  cases hDec : E.decode txn.payload with
  | threw => rw [apply_undecodable E txn _ (Or.inl hDec)]; rfl
  | null => rw [apply_undecodable E txn _ (Or.inr hDec)]; rfl
  | object p =>
    rcases apply_object_cases E txn σ p hDec with
      ⟨_, _, h⟩ | ⟨_, _, h⟩ | ⟨_, hNew, h⟩ | ⟨_, _, h⟩ | ⟨_, a, _, _, _, _, h⟩ |
      ⟨_, a, _, _, _, _, h⟩ <;> rw [h]
    · rfl
    · obtain ⟨hc, hm⟩ := hCreate hNew
      simp only [writeAll_apply, collectionUpdate_get_none E txn x hc hm, Option.getD_none]
    · simp only [writeAll_apply, objGet, Ne.symm hSire, if_false, Option.getD_none]

theorem commitAll_collection_kept (E : Env)
    (hCM : ∀ pk pk' d, E.getCollectionAddress pk ≠ E.getMojiAddress pk' d)
    (hCS : ∀ pk pk', E.getCollectionAddress pk ≠ E.getSireAddress pk')
    (pk : String) (later : List Txn) (σ : Store)
    (hOwn : σ (E.getCollectionAddress pk) ≠ []) :
    commitAll E σ later (E.getCollectionAddress pk) = σ (E.getCollectionAddress pk) := by
  induction later generalizing σ with
  | nil => rfl
  | cons t rest ih =>
    have hStep : commit E σ t (E.getCollectionAddress pk) = σ (E.getCollectionAddress pk) := by
      apply commit_untouched
      · intro hEmpty
        refine ⟨?_, fun d _ => hCM _ _ _⟩
        intro hEq
        rw [hEq] at hOwn
        exact hOwn hEmpty
      · exact hCS _ _
    show commitAll E (commit E σ t) rest _ = _
    rw [ih (commit E σ t) (by rw [hStep]; exact hOwn), hStep]

theorem commitAll_moji_kept (E : Env)
    (hEnc : ∀ r, E.encode r ≠ [])
    (hCM : ∀ pk pk' d, E.getCollectionAddress pk ≠ E.getMojiAddress pk' d)
    (hMS : ∀ pk d pk', E.getMojiAddress pk d ≠ E.getSireAddress pk')
    (pk d : String) (later : List Txn) :
    (∀ t ∈ later, ∀ d' ∈ dnaChain E t.signature,
      E.getMojiAddress pk d = E.getMojiAddress t.signerPublicKey d' →
        t.signerPublicKey = pk) →
    ∀ σ : Store, σ (E.getCollectionAddress pk) ≠ [] →
      commitAll E σ later (E.getMojiAddress pk d) = σ (E.getMojiAddress pk d) := by
  induction later with
  | nil => intro _ σ _; rfl
  | cons t rest ih =>
    intro hOwner σ hOwn
    have hStep : commit E σ t (E.getMojiAddress pk d) = σ (E.getMojiAddress pk d) := by
      apply commit_untouched
      · intro hEmpty
        refine ⟨Ne.symm (hCM _ _ _), fun d' hd' hEq => ?_⟩
        have hpk := hOwner t (List.mem_cons_self _ _) d' hd' hEq
        rw [hpk] at hEmpty
        exact hOwn hEmpty
      · exact hMS _ _ _
    show commitAll E (commit E σ t) rest _ = _
    rw [ih (fun t' ht' => hOwner t' (List.mem_cons_of_mem _ ht')) (commit E σ t)
      (commit_ne_nil E hEnc σ t _ hOwn), hStep]

/-! ## The stand-in address codec keeps the three kinds of address apart -/

theorem demoCollectionPrefix :
    ("5f4d76" ++ "00" : String).data = ['5', 'f', '4', 'd', '7', '6', '0', '0'] := by
  decide

theorem demoMojiPrefix :
    ("5f4d76" ++ "01" : String).data = ['5', 'f', '4', 'd', '7', '6', '0', '1'] := by
  decide

theorem demoSirePrefix :
    ("5f4d76" ++ "02" : String).data = ['5', 'f', '4', 'd', '7', '6', '0', '2'] := by
  decide

set_option maxRecDepth 1000 in
theorem demo_collection_ne_moji (pk pk' d : String) :
    demoEnv.getCollectionAddress pk ≠ demoEnv.getMojiAddress pk' d := by
  intro h
  have h' := congrArg (fun s : String => s.data.take 8) h
  simp only [demoEnv, String.data_append, demoCollectionPrefix, demoMojiPrefix] at h'
  simp at h'

set_option maxRecDepth 1000 in
theorem demo_collection_ne_sire (pk pk' : String) :
    demoEnv.getCollectionAddress pk ≠ demoEnv.getSireAddress pk' := by
  intro h
  have h' := congrArg (fun s : String => s.data.take 8) h
  simp only [demoEnv, String.data_append, demoCollectionPrefix, demoSirePrefix] at h'
  simp at h'

set_option maxRecDepth 1000 in
theorem fixed_collection_ne_moji (pk pk' d : String) :
    fixedEnv.getCollectionAddress pk ≠ fixedEnv.getMojiAddress pk' d := by
  intro h
  have h' := congrArg (fun s : String => s.data.take 8) h
  simp only [fixedEnv, String.data_append, demoCollectionPrefix, demoMojiPrefix] at h'
  simp at h'

set_option maxRecDepth 1000 in
theorem fixed_moji_ne_sire (pk d pk' : String) :
    fixedEnv.getMojiAddress pk d ≠ fixedEnv.getSireAddress pk' := by
  intro h
  have h' := congrArg (fun s : String => s.data.take 8) h
  simp only [fixedEnv, String.data_append, demoMojiPrefix, demoSirePrefix] at h'
  simp at h'

theorem fixedEncode_ne_nil (r : Resource) : fixedEnv.encode r ≠ [] :=
  demoEncode_ne_nil r

/-! ## What a call of `apply` can put at an address -/

theorem collectionUpdate_not_listing (E : Env) (txn : Txn) (a : Address) (v : Bytes)
    (hGet : objGet (collectionUpdate E txn) a = some v) :
    ∃ r, (∀ l, r ≠ Resource.sireListing l) ∧ v = E.encode r := by
  unfold collectionUpdate at hGet
  rcases objGet_objSet_cases _ _ a _ with h | h <;> rw [h] at hGet
  · exact ⟨Resource.moji _, (fun l hl => Resource.noConfusion hl), (Option.some.inj hGet).symm⟩
  rcases objGet_objSet_cases _ _ a _ with h | h <;> rw [h] at hGet
  · exact ⟨Resource.moji _, (fun l hl => Resource.noConfusion hl), (Option.some.inj hGet).symm⟩
  rcases objGet_objSet_cases _ _ a _ with h | h <;> rw [h] at hGet
  · exact ⟨Resource.moji _, (fun l hl => Resource.noConfusion hl), (Option.some.inj hGet).symm⟩
  rcases objGet_objSet_cases _ _ a _ with h | h <;> rw [h] at hGet
  · exact ⟨Resource.collection _, (fun l hl => Resource.noConfusion hl), (Option.some.inj hGet).symm⟩
  · simp [objGet] at hGet

/-- After a call of `apply` an address holds what it held before, or an encoded
collection or moji, or (the signer's sire-listing address only) the encoded
listing of a sire that held data, written for a signer that had a collection. -/
theorem commit_written (E : Env) (σ : Store) (txn : Txn) (x : Address) :
    commit E σ txn x = σ x ∨
    (∃ r, (∀ l, r ≠ Resource.sireListing l) ∧ commit E σ txn x = E.encode r) ∨
    (∃ a, x = E.getSireAddress txn.signerPublicKey ∧
      commit E σ txn x =
        E.encode (Resource.sireListing { owner := txn.signerPublicKey, sire := a }) ∧
      σ (E.getCollectionAddress txn.signerPublicKey) ≠ [] ∧ σ a ≠ []) := by
  unfold commit
  cases hDec : E.decode txn.payload with
  | threw => left; rw [apply_undecodable E txn _ (Or.inl hDec)]; rfl
  | null => left; rw [apply_undecodable E txn _ (Or.inr hDec)]; rfl
  | object p =>
    rcases apply_object_cases E txn σ p hDec with
      ⟨_, _, h⟩ | ⟨_, _, h⟩ | ⟨_, _, h⟩ | ⟨_, _, h⟩ | ⟨_, a, _, _, _, _, h⟩ |
      ⟨_, a, _, _, hOwn, hData, h⟩ <;> rw [h]
    · left; rfl
    · left; rfl
    · simp only [writeAll_apply]
      cases hGet : objGet (collectionUpdate E txn) x with
      | none => left; rfl
      | some v =>
        obtain ⟨r, hr, hv⟩ := collectionUpdate_not_listing E txn x v hGet
        right; left
        exact ⟨r, hr, by simp [hv]⟩
    · left; rfl
    · left; rfl
    · simp only [writeAll_apply]
      by_cases hEq : E.getSireAddress txn.signerPublicKey = x
      · right; right
        exact ⟨a, hEq.symm, by simp [objGet, hEq], hOwn, hData⟩
      · left
        simp [objGet, hEq]

/-- One call of `apply` keeps the sire listing stored for `pk` justified, when
the signer of the call shares the sire-listing address of `pk` only if it is `pk`. -/
theorem commit_keeps_listings (E : Env)
    (hEnc : ∀ r, E.encode r ≠ [])
    (hListing : ∀ r l, E.encode r = E.encode (Resource.sireListing l) →
      r = Resource.sireListing l)
    (σ : Store) (txn : Txn) (pk : String)
    (hSire : E.getSireAddress txn.signerPublicKey = E.getSireAddress pk →
      txn.signerPublicKey = pk)
    (hInv : ∀ l, σ (E.getSireAddress pk) = E.encode (Resource.sireListing l) →
      l.owner = pk ∧ σ (E.getCollectionAddress pk) ≠ [] ∧ σ l.sire ≠ [])
    (l : SireListing)
    (hAt : commit E σ txn (E.getSireAddress pk) = E.encode (Resource.sireListing l)) :
    l.owner = pk ∧ commit E σ txn (E.getCollectionAddress pk) ≠ [] ∧
      commit E σ txn l.sire ≠ [] := by
  rcases commit_written E σ txn (E.getSireAddress pk) with
    hSame | ⟨r, hr, hVal⟩ | ⟨a, hx, hVal, hOwn, hData⟩
  · rw [hSame] at hAt
    obtain ⟨h1, h2, h3⟩ := hInv l hAt
    exact ⟨h1, commit_ne_nil E hEnc σ txn _ h2, commit_ne_nil E hEnc σ txn _ h3⟩
  · rw [hVal] at hAt
    exact absurd (hListing r l hAt) (hr l)
  · rw [hVal] at hAt
    have hl := hListing _ l hAt
    have hpk : txn.signerPublicKey = pk := hSire hx.symm
    cases hl
    subst hpk
    exact ⟨rfl, commit_ne_nil E hEnc σ txn _ hOwn, commit_ne_nil E hEnc σ txn _ hData⟩

theorem commitAll_snoc (E : Env) (σ : Store) (txns : List Txn) (txn : Txn) :
    commitAll E σ (txns ++ [txn]) = commit E (commitAll E σ txns) txn := by
  simp [commitAll, List.foldl_append]

theorem commitAll_keeps_listings (E : Env)
    (hEnc : ∀ r, E.encode r ≠ [])
    (hListing : ∀ r l, E.encode r = E.encode (Resource.sireListing l) →
      r = Resource.sireListing l)
    (pk : String) (history : List Txn) :
    (∀ t ∈ history, E.getSireAddress t.signerPublicKey = E.getSireAddress pk →
      t.signerPublicKey = pk) →
    ∀ l, commitAll E emptyStore history (E.getSireAddress pk) =
        E.encode (Resource.sireListing l) →
      l.owner = pk ∧
      commitAll E emptyStore history (E.getCollectionAddress pk) ≠ [] ∧
      commitAll E emptyStore history l.sire ≠ [] := by
  induction history using List.reverseRecOn with
  | nil =>
    intro _ l hAt
    exfalso
    exact hEnc _ hAt.symm
  | append_singleton txns txn ih =>
    intro hSire l hAt
    rw [commitAll_snoc] at hAt ⊢
    exact commit_keeps_listings E hEnc hListing _ txn pk
      (hSire txn (by simp))
      (ih (fun t ht => hSire t (by simp [ht]))) l hAt

theorem demoBytes_injective (s t : String) (h : demoBytes s = demoBytes t) : s = t := by
  have hmap := congrArg (List.map Char.ofNat) h
  simp only [demoBytes, List.map_map] at hmap
  have hid : (Char.ofNat ∘ Char.toNat) = id := by
    funext c
    simp
  rw [hid, List.map_id, List.map_id] at hmap
  exact String.ext hmap

theorem demoEncode_listing (r : Resource) (l : SireListing)
    (h : demoEnv.encode r = demoEnv.encode (Resource.sireListing l)) :
    r = Resource.sireListing l := by
  cases r with
  | collection c => simp [demoEnv, demoEncode] at h
  | moji m => simp [demoEnv, demoEncode] at h
  | sireListing l' =>
    obtain ⟨o', s'⟩ := l'
    obtain ⟨o, s⟩ := l
    simp only [demoEnv, demoEncode, List.cons.injEq, true_and] at h
    obtain ⟨hLen, hApp⟩ := h
    have hl : (demoBytes o').length = (demoBytes o).length := by
      simp only [demoBytes, List.length_map]
      exact hLen
    have hOwner := demoBytes_injective _ _ (List.append_inj_left hApp hl)
    have hSire := demoBytes_injective _ _ (List.append_inj_right hApp hl)
    rw [hOwner, hSire]

/-! ## The keys of the update of `createCollection` -/

theorem mem_objKeys_objSet (o : Obj) (k a : Address) (v : Bytes) :
    a ∈ objKeys (objSet o k v) ↔ a = k ∨ a ∈ objKeys o := by
  induction o with
  | nil => simp [objSet, objKeys]
  | cons e rest ih =>
    obtain ⟨k', v'⟩ := e
    by_cases hk : k' = k
    · subst hk
      simp [objSet, objKeys]
    · simp only [objKeys] at ih
      simp [objSet, objKeys, hk, ih]
      tauto

theorem length_objKeys_objSet (o : Obj) (k : Address) (v : Bytes) :
    (objKeys (objSet o k v)).length =
      (objKeys o).length + (if k ∈ objKeys o then 0 else 1) := by
  induction o with
  | nil => simp [objSet, objKeys]
  | cons e rest ih =>
    obtain ⟨k', v'⟩ := e
    by_cases hk : k' = k
    · subst hk
      simp [objSet, objKeys]
    · simp only [objKeys] at ih
      have hk' : ¬ k = k' := fun h => hk h.symm
      simp only [objSet, objKeys, hk, if_false, List.map_cons, List.length_cons, ih,
        List.mem_cons, hk', false_or]
      omega

theorem nodup_objKeys_objSet (o : Obj) (k : Address) (v : Bytes)
    (h : (objKeys o).Nodup) : (objKeys (objSet o k v)).Nodup := by
  induction o with
  | nil => simp [objSet, objKeys]
  | cons e rest ih =>
    obtain ⟨k', v'⟩ := e
    by_cases hk : k' = k
    · subst hk
      simpa [objSet, objKeys] using h
    · have hmem := mem_objKeys_objSet rest k k' v
      simp only [objKeys, List.map_cons, List.nodup_cons] at h ih hmem
      simp only [objSet, objKeys, hk, if_false, List.map_cons, List.nodup_cons]
      refine ⟨?_, ih h.2⟩
      rw [hmem]
      rintro (h' | h')
      · exact hk h'
      · exact h.1 h'


theorem objKeys_nil : objKeys [] = [] := rfl

theorem objKeys_four (k0 k1 k2 k3 : Address) (v0 v1 v2 v3 : Bytes) :
    (∀ k, k ∈ objKeys (objSet (objSet (objSet (objSet [] k0 v0) k1 v1) k2 v2) k3 v3) ↔
      k ∈ [k0, k1, k2, k3]) ∧
    (objKeys (objSet (objSet (objSet (objSet [] k0 v0) k1 v1) k2 v2) k3 v3)).Nodup ∧
    (objKeys (objSet (objSet (objSet (objSet [] k0 v0) k1 v1) k2 v2) k3 v3)).length ≤ 4 ∧
    ((objKeys (objSet (objSet (objSet (objSet [] k0 v0) k1 v1) k2 v2) k3 v3)).length = 4 ↔
      [k0, k1, k2, k3].Nodup) := by
  refine ⟨?_, ?_, ?_, ?_⟩
  · intro k
    simp only [mem_objKeys_objSet, objKeys_nil, List.mem_cons, List.mem_singleton,
      List.not_mem_nil, or_false]
    tauto
  · exact nodup_objKeys_objSet _ _ _ (nodup_objKeys_objSet _ _ _
      (nodup_objKeys_objSet _ _ _ (nodup_objKeys_objSet _ _ _ (by simp [objKeys_nil]))))
  · simp only [length_objKeys_objSet, objKeys_nil, List.length_nil]
    split_ifs <;> omega
  · simp only [length_objKeys_objSet, mem_objKeys_objSet, objKeys_nil, List.length_nil,
      List.not_mem_nil, or_false, if_false, List.nodup_cons, List.mem_cons,
      List.mem_singleton, List.nodup_nil, and_true, not_or]
    constructor
    · intro h
      by_cases h1 : k1 = k0
      · simp only [h1, if_true] at h
        split_ifs at h <;> omega
      by_cases h2 : k2 = k1 ∨ k2 = k0
      · simp only [h2, if_true] at h
        split_ifs at h <;> omega
      by_cases h3 : k3 = k2 ∨ k3 = k1 ∨ k3 = k0
      · simp only [h1, h2, h3, if_true, if_false] at h
        omega
      exact ⟨⟨fun e => h1 e.symm, fun e => h2 (Or.inr e.symm),
          fun e => h3 (Or.inr (Or.inr e.symm))⟩,
        ⟨fun e => h2 (Or.inl e.symm), fun e => h3 (Or.inr (Or.inl e.symm))⟩,
        fun e => h3 (Or.inl e.symm), not_false⟩
    · rintro ⟨⟨h01, h02, h03⟩, ⟨h12, h13⟩, h23, _⟩
      have e1 : ¬ k1 = k0 := fun e => h01 e.symm
      have e2 : ¬ (k2 = k1 ∨ k2 = k0) := by
        rintro (e | e)
        · exact h12 e.symm
        · exact h02 e.symm
      have e3 : ¬ (k3 = k2 ∨ k3 = k1 ∨ k3 = k0) := by
        rintro (e | e | e)
        · exact h23 e.symm
        · exact h13 e.symm
        · exact h03 e.symm
      simp only [e1, e2, e3, if_false]

/-! ## Claims -/

/-- C1. A CREATE_COLLECTION transaction whose signer has no data at its collection
address succeeds: after one `getState` of the collection address `apply` issues one
`setState`, and the update it passes maps `getCollectionAddress(pk)` to the encoded
collection `{ key: pk, moji: [m1, m2, m3] }`, where `m_i = getMojiAddress(pk, d_i)`
and `d1, d2, d3` are the DNA strings derived from the signature, and maps every
`m_i` to the encoded moji with dna `d_i`, owner `pk` and the placeholder values.
The address codec is assumed free of collisions on these inputs: the collection
address differs from the moji addresses, and two of the DNA strings with the same
moji address are equal. -/
theorem createCollection_writes_collection_and_mojis (E : Env) (txn : Txn) (σ : Store)
    (p : Payload)
    (hDec : E.decode txn.payload = Decoded.object p)
    (hAct : p.action = some "CREATE_COLLECTION")
    (hNew : σ (E.getCollectionAddress txn.signerPublicKey) = [])
    (hSep : ∀ d ∈ dnaChain E txn.signature,
      E.getCollectionAddress txn.signerPublicKey ≠ E.getMojiAddress txn.signerPublicKey d)
    (hInj : ∀ d ∈ dnaChain E txn.signature, ∀ d' ∈ dnaChain E txn.signature,
      E.getMojiAddress txn.signerPublicKey d = E.getMojiAddress txn.signerPublicKey d' →
        d = d') :
    ∃ update : Obj,
      apply E txn (freshContext σ) =
        ({ store := writeAll σ update,
           log := [StoreOp.getState [E.getCollectionAddress txn.signerPublicKey],
                   StoreOp.setState update] },
         Except.ok (objKeys update)) ∧
      objGet update (E.getCollectionAddress txn.signerPublicKey) =
        some (E.encode (Resource.collection
          { key := txn.signerPublicKey,
            moji :=
              [E.getMojiAddress txn.signerPublicKey (dna1 E txn.signature),
               E.getMojiAddress txn.signerPublicKey (dna2 E (dna1 E txn.signature)),
               E.getMojiAddress txn.signerPublicKey
                 (dna3 E (dna2 E (dna1 E txn.signature)))] })) ∧
      ∀ d ∈ dnaChain E txn.signature,
        objGet update (E.getMojiAddress txn.signerPublicKey d) =
          some (E.encode (Resource.moji
            { dna := d, owner := txn.signerPublicKey,
              breeder := "<string, moji address>", sire := "<string, moji address>",
              bred := ["<strings, moji addresses>"],
              sired := ["<strings, moji addresses>"] })) := by
  have m1 : dna1 E txn.signature ∈ dnaChain E txn.signature := by simp [dnaChain]
  have m2 : dna2 E (dna1 E txn.signature) ∈ dnaChain E txn.signature := by simp [dnaChain]
  have m3 : dna3 E (dna2 E (dna1 E txn.signature)) ∈ dnaChain E txn.signature := by
    simp [dnaChain]
  refine ⟨collectionUpdate E txn, apply_create_new E txn σ p hDec hAct hNew, ?_, ?_⟩
  · unfold collectionUpdate
    apply objGet_objSet_agree _ _ _ _ _ (fun h => absurd h.symm (hSep _ m3))
    apply objGet_objSet_agree _ _ _ _ _ (fun h => absurd h.symm (hSep _ m2))
    apply objGet_objSet_agree _ _ _ _ _ (fun h => absurd h.symm (hSep _ m1))
    exact objGet_objSet_same _ _ _
  · intro d hd
    simp only [dnaChain, List.mem_cons, List.mem_singleton, List.not_mem_nil, or_false] at hd
    unfold collectionUpdate
    rcases hd with rfl | rfl | rfl
    · apply objGet_objSet_agree
      · intro h
        have hd := hInj _ m3 _ m1 h
        simp only [mojie3]
        rw [hd]
      apply objGet_objSet_agree
      · intro h
        have hd := hInj _ m2 _ m1 h
        simp only [mojie2]
        rw [hd]
      exact objGet_objSet_same _ _ _
    · apply objGet_objSet_agree
      · intro h
        have hd := hInj _ m3 _ m2 h
        simp only [mojie3]
        rw [hd]
      exact objGet_objSet_same _ _ _
    · exact objGet_objSet_same _ _ _

theorem createCollection_writes_collection_and_mojis_witness :
    demoEnv.decode demoCreate.payload
        = Decoded.object { action := some "CREATE_COLLECTION", sire := none } ∧
      emptyStore (demoEnv.getCollectionAddress demoCreate.signerPublicKey) = [] ∧
      (∀ d ∈ dnaChain demoEnv demoCreate.signature,
        demoEnv.getCollectionAddress demoCreate.signerPublicKey
          ≠ demoEnv.getMojiAddress demoCreate.signerPublicKey d) ∧
      (∀ d ∈ dnaChain demoEnv demoCreate.signature,
        ∀ d' ∈ dnaChain demoEnv demoCreate.signature,
        demoEnv.getMojiAddress demoCreate.signerPublicKey d
          = demoEnv.getMojiAddress demoCreate.signerPublicKey d' → d = d') ∧
      ∃ update : Obj,
        apply demoEnv demoCreate (freshContext emptyStore) =
          ({ store := writeAll emptyStore update,
             log := [StoreOp.getState [demoEnv.getCollectionAddress demoCreate.signerPublicKey],
                     StoreOp.setState update] },
           Except.ok (objKeys update)) ∧
        objGet update (demoEnv.getCollectionAddress demoCreate.signerPublicKey) =
          some (demoEnv.encode (Resource.collection
            { key := demoCreate.signerPublicKey,
              moji :=
                [demoEnv.getMojiAddress demoCreate.signerPublicKey
                   (dna1 demoEnv demoCreate.signature),
                 demoEnv.getMojiAddress demoCreate.signerPublicKey
                   (dna2 demoEnv (dna1 demoEnv demoCreate.signature)),
                 demoEnv.getMojiAddress demoCreate.signerPublicKey
                   (dna3 demoEnv (dna2 demoEnv (dna1 demoEnv demoCreate.signature)))] })) ∧
        ∀ d ∈ dnaChain demoEnv demoCreate.signature,
          objGet update (demoEnv.getMojiAddress demoCreate.signerPublicKey d) =
            some (demoEnv.encode (Resource.moji
              { dna := d, owner := demoCreate.signerPublicKey,
                breeder := "<string, moji address>", sire := "<string, moji address>",
                bred := ["<strings, moji addresses>"],
                sired := ["<strings, moji addresses>"] })) :=
  ⟨by decide, by decide, by decide, by decide,
   createCollection_writes_collection_and_mojis demoEnv demoCreate emptyStore
     { action := some "CREATE_COLLECTION", sire := none }
     (by decide) rfl (by decide) (by decide) (by decide)⟩

/-- C2. A CREATE_COLLECTION transaction whose signer already has data at its
collection address is rejected with the invalid-transaction error
`Owner already exists`; the only call made on the context is the `getState` of
the collection address, so no `setState` is issued and the store is unchanged. -/
theorem createCollection_rejects_existing_owner (E : Env) (txn : Txn) (σ : Store)
    (p : Payload)
    (hDec : E.decode txn.payload = Decoded.object p)
    (hAct : p.action = some "CREATE_COLLECTION")
    (hOwn : σ (E.getCollectionAddress txn.signerPublicKey) ≠ []) :
    apply E txn (freshContext σ) =
      ({ store := σ,
         log := [StoreOp.getState [E.getCollectionAddress txn.signerPublicKey]] },
       Except.error (Failure.invalidTransaction (some "Owner already exists"))) := by
  exact apply_create_exists E txn σ p hDec hAct hOwn

theorem createCollection_rejects_existing_owner_witness :
    demoEnv.decode demoCreate.payload
        = Decoded.object { action := some "CREATE_COLLECTION", sire := none } ∧
      demoStore ["5f4d7600pub1"] (demoEnv.getCollectionAddress demoCreate.signerPublicKey)
        ≠ [] ∧
      apply demoEnv demoCreate (freshContext (demoStore ["5f4d7600pub1"])) =
        ({ store := demoStore ["5f4d7600pub1"],
           log := [StoreOp.getState [demoEnv.getCollectionAddress demoCreate.signerPublicKey]] },
         Except.error (Failure.invalidTransaction (some "Owner already exists"))) :=
  ⟨by decide, by decide,
   createCollection_rejects_existing_owner demoEnv demoCreate (demoStore ["5f4d7600pub1"])
     { action := some "CREATE_COLLECTION", sire := none } (by decide) rfl (by decide)⟩

/-- C3. Once a CREATE_COLLECTION transaction signed by `pk` has succeeded and its
update is in the store, every later CREATE_COLLECTION transaction signed by `pk`,
with any signature and after any transactions applied in between, is rejected
with `Owner already exists`, makes no `setState` call and leaves the store exactly
as it was before that attempt.  The payload codec is assumed to encode every
resource to a non-empty buffer. -/
theorem createCollection_second_attempt_fails (E : Env)
    (hEnc : ∀ r, E.encode r ≠ [])
    (σ : Store) (first later : Txn) (between : List Txn) (p1 p2 : Payload)
    (hDec1 : E.decode first.payload = Decoded.object p1)
    (hAct1 : p1.action = some "CREATE_COLLECTION")
    (hDec2 : E.decode later.payload = Decoded.object p2)
    (hAct2 : p2.action = some "CREATE_COLLECTION")
    (hPk : later.signerPublicKey = first.signerPublicKey)
    (hOk : ∃ r, (apply E first (freshContext σ)).2 = Except.ok r) :
    apply E later (freshContext (commitAll E (commit E σ first) between)) =
      ({ store := commitAll E (commit E σ first) between,
         log := [StoreOp.getState [E.getCollectionAddress first.signerPublicKey]] },
       Except.error (Failure.invalidTransaction (some "Owner already exists"))) := by
  have hNew : σ (E.getCollectionAddress first.signerPublicKey) = [] := by
    by_contra hOwn
    obtain ⟨r, hr⟩ := hOk
    rw [apply_create_exists E first σ p1 hDec1 hAct1 hOwn] at hr
    cases hr
  have hWritten : commit E σ first (E.getCollectionAddress first.signerPublicKey) ≠ [] := by
    unfold commit
    rw [apply_create_new E first σ p1 hDec1 hAct1 hNew]
    obtain ⟨r, hr⟩ := collectionUpdate_at_collection E first
    simp only [writeAll_apply, hr, Option.getD_some]
    exact hEnc r
  have hStill := commitAll_ne_nil E hEnc between _ _ hWritten
  rw [← hPk] at hStill
  rw [apply_create_exists E later _ p2 hDec2 hAct2 hStill, hPk]

theorem createCollection_second_attempt_fails_witness :
    (∀ r, demoEnv.encode r ≠ []) ∧
      demoEnv.decode demoCreate.payload
        = Decoded.object { action := some "CREATE_COLLECTION", sire := none } ∧
      demoEnv.decode demoCreateAgain.payload
        = Decoded.object { action := some "CREATE_COLLECTION", sire := none } ∧
      demoCreateAgain.signerPublicKey = demoCreate.signerPublicKey ∧
      (∃ r, (apply demoEnv demoCreate (freshContext emptyStore)).2 = Except.ok r) ∧
      apply demoEnv demoCreateAgain
          (freshContext (commitAll demoEnv (commit demoEnv emptyStore demoCreate)
            [demoSelect "5f4d7601bb"])) =
        ({ store := commitAll demoEnv (commit demoEnv emptyStore demoCreate)
             [demoSelect "5f4d7601bb"],
           log := [StoreOp.getState [demoEnv.getCollectionAddress demoCreate.signerPublicKey]] },
         Except.error (Failure.invalidTransaction (some "Owner already exists"))) :=
  ⟨demoEncode_ne_nil, by decide, by decide, by decide,
   ⟨_, congrArg Prod.snd (apply_create_new demoEnv demoCreate emptyStore
     { action := some "CREATE_COLLECTION", sire := none } (by decide) rfl (by decide))⟩,
   createCollection_second_attempt_fails demoEnv demoEncode_ne_nil emptyStore demoCreate
     demoCreateAgain [demoSelect "5f4d7601bb"]
     { action := some "CREATE_COLLECTION", sire := none }
     { action := some "CREATE_COLLECTION", sire := none }
     (by decide) rfl (by decide) rfl (by decide)
     ⟨_, congrArg Prod.snd (apply_create_new demoEnv demoCreate emptyStore
       { action := some "CREATE_COLLECTION", sire := none } (by decide) rfl (by decide))⟩⟩

/-- C4 (as amended). For a successful CREATE_COLLECTION the keys of the update
passed to `setState` are distinct and are exactly the collection address and the
three moji addresses computed for the transaction; there are at most 4 of them,
and exactly 4 if and only if these four addresses are pairwise distinct.  Each
moji address holds an encoded moji whose address it is, and when the collection
address is none of the moji addresses it holds the encoded collection record,
whose list is exactly the three moji addresses. -/
theorem createCollection_update_keys (E : Env) (txn : Txn) (σ : Store)
    (p : Payload)
    (hDec : E.decode txn.payload = Decoded.object p)
    (hAct : p.action = some "CREATE_COLLECTION")
    (hNew : σ (E.getCollectionAddress txn.signerPublicKey) = []) :
    ∃ (update : Obj) (mojiAddresses : List Address),
      (apply E txn (freshContext σ)).1.log =
        [StoreOp.getState [E.getCollectionAddress txn.signerPublicKey],
         StoreOp.setState update] ∧
      (apply E txn (freshContext σ)).2 = Except.ok (objKeys update) ∧
      mojiAddresses =
        [E.getMojiAddress txn.signerPublicKey (dna1 E txn.signature),
         E.getMojiAddress txn.signerPublicKey (dna2 E (dna1 E txn.signature)),
         E.getMojiAddress txn.signerPublicKey (dna3 E (dna2 E (dna1 E txn.signature)))] ∧
      (∀ k, k ∈ objKeys update ↔
        k ∈ E.getCollectionAddress txn.signerPublicKey :: mojiAddresses) ∧
      (objKeys update).Nodup ∧
      (objKeys update).length ≤ 4 ∧
      ((objKeys update).length = 4 ↔
        (E.getCollectionAddress txn.signerPublicKey :: mojiAddresses).Nodup) ∧
      ((E.getCollectionAddress txn.signerPublicKey :: mojiAddresses).Nodup →
        objKeys update = E.getCollectionAddress txn.signerPublicKey :: mojiAddresses) ∧
      (E.getCollectionAddress txn.signerPublicKey ∉ mojiAddresses →
        objGet update (E.getCollectionAddress txn.signerPublicKey) =
          some (E.encode (Resource.collection
            { key := txn.signerPublicKey, moji := mojiAddresses }))) ∧
      ∀ a ∈ mojiAddresses, ∃ m : Moji,
        a = E.getMojiAddress m.owner m.dna ∧
        objGet update a = some (E.encode (Resource.moji m)) := by
  have hKeys := objKeys_four (E.getCollectionAddress txn.signerPublicKey)
    (E.getMojiAddress txn.signerPublicKey (dna1 E txn.signature))
    (E.getMojiAddress txn.signerPublicKey (dna2 E (dna1 E txn.signature)))
    (E.getMojiAddress txn.signerPublicKey (dna3 E (dna2 E (dna1 E txn.signature))))
    (E.encode (Resource.collection
      { key := txn.signerPublicKey,
        moji := getMojiAddressses E txn.signerPublicKey txn.signature }))
    (E.encode (Resource.moji (mojie1 E txn.signature txn.signerPublicKey)))
    (E.encode (Resource.moji (mojie2 E txn.signature txn.signerPublicKey)))
    (E.encode (Resource.moji (mojie3 E txn.signature txn.signerPublicKey)))
  obtain ⟨hMem, hNodup, hLe, hFour⟩ := hKeys
  refine ⟨collectionUpdate E txn, _, ?_, ?_, rfl, hMem, hNodup, hLe, hFour, ?_, ?_, ?_⟩
  · rw [apply_create_new E txn σ p hDec hAct hNew]
  · rw [apply_create_new E txn σ p hDec hAct hNew]
  · intro hDistinct
    rw [collectionUpdate_distinct E txn hDistinct]
    rfl
  · intro hSep
    simp only [List.mem_cons, List.mem_singleton, List.not_mem_nil, or_false, not_or] at hSep
    refine collectionUpdate_collection_entry E txn ?_
    intro d hd
    simp only [dnaChain, List.mem_cons, List.mem_singleton, List.not_mem_nil, or_false] at hd
    rcases hd with rfl | rfl | rfl
    · exact hSep.1
    · exact hSep.2.1
    · exact hSep.2.2
  · intro a ha
    simp only [List.mem_cons, List.mem_singleton, List.not_mem_nil, or_false] at ha
    unfold collectionUpdate
    by_cases h3 : E.getMojiAddress txn.signerPublicKey
        (dna3 E (dna2 E (dna1 E txn.signature))) = a
    · exact ⟨mojie3 E txn.signature txn.signerPublicKey, h3.symm, by
        rw [← h3]
        exact objGet_objSet_same _ _ _⟩
    rw [objGet_objSet_ne _ _ _ _ h3]
    by_cases h2 : E.getMojiAddress txn.signerPublicKey (dna2 E (dna1 E txn.signature)) = a
    · exact ⟨mojie2 E txn.signature txn.signerPublicKey, h2.symm, by
        rw [← h2]
        exact objGet_objSet_same _ _ _⟩
    rw [objGet_objSet_ne _ _ _ _ h2]
    rcases ha with rfl | rfl | rfl
    · exact ⟨mojie1 E txn.signature txn.signerPublicKey, rfl, objGet_objSet_same _ _ _⟩
    · exact absurd rfl h2
    · exact absurd rfl h3

theorem createCollection_update_keys_witness :
    demoEnv.decode demoCreate.payload
        = Decoded.object { action := some "CREATE_COLLECTION", sire := none } ∧
      emptyStore (demoEnv.getCollectionAddress demoCreate.signerPublicKey) = [] ∧
      ∃ (update : Obj) (mojiAddresses : List Address),
        (apply demoEnv demoCreate (freshContext emptyStore)).1.log =
          [StoreOp.getState [demoEnv.getCollectionAddress demoCreate.signerPublicKey],
           StoreOp.setState update] ∧
        (objKeys update).Nodup ∧
        (objKeys update).length ≤ 4 ∧
        ((objKeys update).length = 4 ↔
          (demoEnv.getCollectionAddress demoCreate.signerPublicKey :: mojiAddresses).Nodup) :=
  ⟨by decide, by decide,
   (createCollection_update_keys demoEnv demoCreate emptyStore
     { action := some "CREATE_COLLECTION", sire := none }
     (by decide) rfl (by decide)).imp fun _ h =>
       h.imp fun _ h' => ⟨h'.1, h'.2.2.2.2.1, h'.2.2.2.2.2.1, h'.2.2.2.2.2.2.1⟩⟩

/-- C4 (as stated, refuted). With a digest under which the three DNA strings of
the signature coincide, a CREATE_COLLECTION succeeds and the update it passes to
`setState` has 2 keys, the collection address and one moji address, not 4. -/
theorem createCollection_update_with_two_keys :
    (apply collidingEnv demoCreate (freshContext emptyStore)).2 =
      Except.ok ["5f4d7600pub1", "5f4d7601pub1000000000000000000000000000000000000"] ∧
    ∃ update : Obj,
      (apply collidingEnv demoCreate (freshContext emptyStore)).1.log =
        [StoreOp.getState ["5f4d7600pub1"], StoreOp.setState update] ∧
      (objKeys update).length = 2 := by
  have hApply := apply_create_new collidingEnv demoCreate emptyStore
    { action := some "CREATE_COLLECTION", sire := none } (by decide) rfl (by decide)
  have hKeys : objKeys (collectionUpdate collidingEnv demoCreate) =
      ["5f4d7600pub1", "5f4d7601pub1000000000000000000000000000000000000"] := by
    decide
  refine ⟨?_, collectionUpdate collidingEnv demoCreate, ?_, ?_⟩
  · rw [hApply, hKeys]
  · rw [hApply]
    rfl
  · rw [hKeys]
    rfl

/-- C5. The dna fields of the three moji built by `mojie1`, `mojie2`, `mojie3`
form a hash chain: the first is the first 36 characters of the SHA-512 hex digest
of the signature, and each later one is the first 36 characters of the digest of
the previous dna string itself. -/
theorem mojie_dna_hash_chain (E : Env) (s pk : String) :
    (mojie1 E s pk).dna = slice0 (E.sha512hex s) 36 ∧
    (mojie2 E s pk).dna = slice0 (E.sha512hex (mojie1 E s pk).dna) 36 ∧
    (mojie3 E s pk).dna = slice0 (E.sha512hex (mojie2 E s pk).dna) 36 :=
  ⟨rfl, rfl, rfl⟩

/-- C6. When every SHA-512 hex digest is a string of 128 hexadecimal digits, each
of the three DNA strings derived from a signature (the empty signature included)
is exactly 36 characters long and made of hexadecimal digits only. -/
theorem dna_is_36_hex_digits (E : Env)
    (hDigest : ∀ x, (E.sha512hex x).length = 128 ∧ isHex (E.sha512hex x) = true)
    (s : String) :
    ((dna1 E s).length = 36 ∧ isHex (dna1 E s) = true) ∧
    ((dna2 E (dna1 E s)).length = 36 ∧ isHex (dna2 E (dna1 E s)) = true) ∧
    ((dna3 E (dna2 E (dna1 E s))).length = 36 ∧
      isHex (dna3 E (dna2 E (dna1 E s))) = true) :=
  ⟨slice0_digest _ (hDigest _).1 (hDigest _).2,
   slice0_digest _ (hDigest _).1 (hDigest _).2,
   slice0_digest _ (hDigest _).1 (hDigest _).2⟩

theorem dna_is_36_hex_digits_witness :
    (∀ x, (demoEnv.sha512hex x).length = 128 ∧ isHex (demoEnv.sha512hex x) = true) ∧
    ((dna1 demoEnv "").length = 36 ∧ isHex (dna1 demoEnv "") = true) ∧
    ((dna2 demoEnv (dna1 demoEnv "")).length = 36 ∧
      isHex (dna2 demoEnv (dna1 demoEnv "")) = true) ∧
    ((dna3 demoEnv (dna2 demoEnv (dna1 demoEnv ""))).length = 36 ∧
      isHex (dna3 demoEnv (dna2 demoEnv (dna1 demoEnv ""))) = true) :=
  ⟨demoDigest_wellFormed, dna_is_36_hex_digits demoEnv demoDigest_wellFormed ""⟩

/-- C7. A SELECT_SIRE transaction whose signer has no data at its collection
address is rejected with an invalid-transaction error, whatever the payload's
sire field holds (also an address that exists in state); the error is the
`InvalidTransaction` raised without a message by `checkCollectionsExists`.  The
only call made on the context is the `getState` of the collection address: no
`setState` is issued and the store is unchanged. -/
theorem selectSire_rejects_without_collection (E : Env) (txn : Txn) (σ : Store)
    (p : Payload)
    (hDec : E.decode txn.payload = Decoded.object p)
    (hAct : p.action = some "SELECT_SIRE")
    (hNone : σ (E.getCollectionAddress txn.signerPublicKey) = []) :
    apply E txn (freshContext σ) =
      ({ store := σ,
         log := [StoreOp.getState [E.getCollectionAddress txn.signerPublicKey]] },
       Except.error (Failure.invalidTransaction none)) := by
  rw [apply_selectSire E txn _ p hDec hAct]
  exact checkCollectionsExists_empty E txn σ p hNone

theorem selectSire_rejects_without_collection_witness :
    demoEnv.decode (demoSelect "5f4d7601aa").payload
        = Decoded.object { action := some "SELECT_SIRE", sire := some "5f4d7601aa" } ∧
      demoStore ["5f4d7601aa"] "5f4d7601aa" ≠ [] ∧
      demoStore ["5f4d7601aa"]
        (demoEnv.getCollectionAddress (demoSelect "5f4d7601aa").signerPublicKey) = [] ∧
      apply demoEnv (demoSelect "5f4d7601aa") (freshContext (demoStore ["5f4d7601aa"])) =
        ({ store := demoStore ["5f4d7601aa"],
           log := [StoreOp.getState
             [demoEnv.getCollectionAddress (demoSelect "5f4d7601aa").signerPublicKey]] },
         Except.error (Failure.invalidTransaction none)) :=
  ⟨by decide, by decide, by decide,
   selectSire_rejects_without_collection demoEnv (demoSelect "5f4d7601aa")
     (demoStore ["5f4d7601aa"]) { action := some "SELECT_SIRE", sire := some "5f4d7601aa" }
     (by decide) rfl (by decide)⟩

/-- C8. A SELECT_SIRE transaction whose signer has data at its collection address
and whose sire address holds no data is rejected with an invalid-transaction
error, the `InvalidTransaction` raised without a message.  The store is unchanged
and the calls made on the context are `getState` calls only (the collection
address, then the sire address unless the sire is the empty string): no
`setState` is issued. -/
theorem selectSire_rejects_missing_sire (E : Env) (txn : Txn) (σ : Store)
    (p : Payload) (a : Address)
    (hDec : E.decode txn.payload = Decoded.object p)
    (hAct : p.action = some "SELECT_SIRE")
    (hSire : p.sire = some a)
    (hOwn : σ (E.getCollectionAddress txn.signerPublicKey) ≠ [])
    (hNone : σ a = []) :
    (apply E txn (freshContext σ)).2 = Except.error (Failure.invalidTransaction none) ∧
    (apply E txn (freshContext σ)).1.store = σ ∧
    (apply E txn (freshContext σ)).1.log =
      if a = "" then [StoreOp.getState [E.getCollectionAddress txn.signerPublicKey]]
      else [StoreOp.getState [E.getCollectionAddress txn.signerPublicKey],
            StoreOp.getState [a]] := by
  rw [apply_selectSire E txn _ p hDec hAct]
  by_cases ha : a = ""
  · rw [checkCollectionsExists_falsy E txn σ p (by simp [hSire, truthy, ha])]
    simp [ha]
  · rw [checkCollectionsExists_pass E txn σ p a hSire ha hOwn,
      selectSire_missing E txn _ a hNone]
    simp [ha]

theorem selectSire_rejects_missing_sire_witness :
    demoEnv.decode (demoSelect "5f4d7601bb").payload
        = Decoded.object { action := some "SELECT_SIRE", sire := some "5f4d7601bb" } ∧
      demoStore ["5f4d7600pub1"]
        (demoEnv.getCollectionAddress (demoSelect "5f4d7601bb").signerPublicKey) ≠ [] ∧
      demoStore ["5f4d7600pub1"] "5f4d7601bb" = [] ∧
      (apply demoEnv (demoSelect "5f4d7601bb") (freshContext (demoStore ["5f4d7600pub1"]))).2
        = Except.error (Failure.invalidTransaction none) :=
  ⟨by decide, by decide, by decide,
   (selectSire_rejects_missing_sire demoEnv (demoSelect "5f4d7601bb")
     (demoStore ["5f4d7600pub1"]) { action := some "SELECT_SIRE", sire := some "5f4d7601bb" }
     "5f4d7601bb" (by decide) rfl rfl (by decide) (by decide)).1⟩

/-- C9. A SELECT_SIRE transaction with sire address `a` (an address, so not the
empty string) whose signer has data at its collection address and whose sire
address holds data succeeds: after reading the collection address, the sire
address and the signer's sire-listing address, `apply` issues one `setState`
whose update has exactly one entry, mapping `getSireAddress(pk)` to the encoded
sire listing with owner `pk` and sire `a`. -/
theorem selectSire_writes_listing (E : Env) (txn : Txn) (σ : Store)
    (p : Payload) (a : Address)
    (hDec : E.decode txn.payload = Decoded.object p)
    (hAct : p.action = some "SELECT_SIRE")
    (hSire : p.sire = some a)
    (ha : a ≠ "")
    (hOwn : σ (E.getCollectionAddress txn.signerPublicKey) ≠ [])
    (hSome : σ a ≠ []) :
    apply E txn (freshContext σ) =
      ({ store := writeAll σ
           [(E.getSireAddress txn.signerPublicKey,
             E.encode (Resource.sireListing { owner := txn.signerPublicKey, sire := a }))],
         log :=
           [StoreOp.getState [E.getCollectionAddress txn.signerPublicKey],
            StoreOp.getState [a],
            StoreOp.getState [E.getSireAddress txn.signerPublicKey],
            StoreOp.setState
              [(E.getSireAddress txn.signerPublicKey,
                E.encode (Resource.sireListing { owner := txn.signerPublicKey, sire := a }))]] },
       Except.ok [E.getSireAddress txn.signerPublicKey]) :=
  apply_select_found E txn σ p a hDec hAct hSire ha hOwn hSome

theorem selectSire_writes_listing_witness :
    demoEnv.decode (demoSelect "5f4d7601bb").payload
        = Decoded.object { action := some "SELECT_SIRE", sire := some "5f4d7601bb" } ∧
      ("5f4d7601bb" : Address) ≠ "" ∧
      demoStore ["5f4d7600pub1", "5f4d7601bb"]
        (demoEnv.getCollectionAddress (demoSelect "5f4d7601bb").signerPublicKey) ≠ [] ∧
      demoStore ["5f4d7600pub1", "5f4d7601bb"] "5f4d7601bb" ≠ [] ∧
      (apply demoEnv (demoSelect "5f4d7601bb")
        (freshContext (demoStore ["5f4d7600pub1", "5f4d7601bb"]))).2
        = Except.ok ["5f4d7602pub1"] :=
  ⟨by decide, by decide, by decide, by decide,
   congrArg Prod.snd
     (selectSire_writes_listing demoEnv (demoSelect "5f4d7601bb")
       (demoStore ["5f4d7600pub1", "5f4d7601bb"])
       { action := some "SELECT_SIRE", sire := some "5f4d7601bb" }
       "5f4d7601bb" (by decide) rfl rfl (by decide) (by decide) (by decide))⟩

/-- C10. When the signer `pk` has data at its collection address and the sire
addresses `a` and `b` (addresses, so not the empty string) both hold data, two
SELECT_SIRE transactions signed by `pk`, first with sire `a` and then with sire
`b`, applied in sequence both succeed, and afterwards the store holds at
`getSireAddress(pk)` the encoded sire listing with owner `pk` and sire `b`,
whatever was stored there before.  The payload codec is assumed to encode every
resource to a non-empty buffer. -/
theorem selectSire_last_write_wins (E : Env)
    (hEnc : ∀ r, E.encode r ≠ [])
    (σ : Store) (t1 t2 : Txn) (p1 p2 : Payload) (a b : Address)
    (hDec1 : E.decode t1.payload = Decoded.object p1)
    (hAct1 : p1.action = some "SELECT_SIRE")
    (hSire1 : p1.sire = some a)
    (hDec2 : E.decode t2.payload = Decoded.object p2)
    (hAct2 : p2.action = some "SELECT_SIRE")
    (hSire2 : p2.sire = some b)
    (hPk : t2.signerPublicKey = t1.signerPublicKey)
    (ha : a ≠ "") (hb : b ≠ "")
    (hOwn : σ (E.getCollectionAddress t1.signerPublicKey) ≠ [])
    (hA : σ a ≠ []) (hB : σ b ≠ []) :
    (apply E t1 (freshContext σ)).2 = Except.ok [E.getSireAddress t1.signerPublicKey] ∧
    (apply E t2 (freshContext (commit E σ t1))).2
      = Except.ok [E.getSireAddress t1.signerPublicKey] ∧
    commitAll E σ [t1, t2] (E.getSireAddress t1.signerPublicKey) =
      E.encode (Resource.sireListing { owner := t1.signerPublicKey, sire := b }) := by
  have hOwn2 : commit E σ t1 (E.getCollectionAddress t2.signerPublicKey) ≠ [] := by
    rw [hPk]
    exact commit_ne_nil E hEnc σ t1 _ hOwn
  have hB2 : commit E σ t1 b ≠ [] := commit_ne_nil E hEnc σ t1 _ hB
  have h1 := apply_select_found E t1 σ p1 a hDec1 hAct1 hSire1 ha hOwn hA
  have h2 := apply_select_found E t2 (commit E σ t1) p2 b hDec2 hAct2 hSire2 hb hOwn2 hB2
  refine ⟨by rw [h1], by rw [h2, hPk], ?_⟩
  show (apply E t2 (freshContext (commit E σ t1))).1.store
    (E.getSireAddress t1.signerPublicKey) = _
  rw [h2, hPk]
  simp [writeAll, objGet]

theorem selectSire_last_write_wins_witness :
    (∀ r, demoEnv.encode r ≠ []) ∧
      demoEnv.decode (demoSelect "5f4d7601aa").payload
        = Decoded.object { action := some "SELECT_SIRE", sire := some "5f4d7601aa" } ∧
      demoEnv.decode (demoSelect "5f4d7601bb").payload
        = Decoded.object { action := some "SELECT_SIRE", sire := some "5f4d7601bb" } ∧
      (demoSelect "5f4d7601bb").signerPublicKey = (demoSelect "5f4d7601aa").signerPublicKey ∧
      ("5f4d7601aa" : Address) ≠ "" ∧ ("5f4d7601bb" : Address) ≠ "" ∧
      demoStore ["5f4d7600pub1", "5f4d7601aa", "5f4d7601bb"]
        (demoEnv.getCollectionAddress (demoSelect "5f4d7601aa").signerPublicKey) ≠ [] ∧
      demoStore ["5f4d7600pub1", "5f4d7601aa", "5f4d7601bb"] "5f4d7601aa" ≠ [] ∧
      demoStore ["5f4d7600pub1", "5f4d7601aa", "5f4d7601bb"] "5f4d7601bb" ≠ [] ∧
      commitAll demoEnv (demoStore ["5f4d7600pub1", "5f4d7601aa", "5f4d7601bb"])
          [demoSelect "5f4d7601aa", demoSelect "5f4d7601bb"]
          (demoEnv.getSireAddress (demoSelect "5f4d7601aa").signerPublicKey) =
        demoEnv.encode (Resource.sireListing
          { owner := (demoSelect "5f4d7601aa").signerPublicKey, sire := "5f4d7601bb" }) :=
  ⟨demoEncode_ne_nil, by decide, by decide, by decide, by decide, by decide,
   by decide, by decide, by decide,
   (selectSire_last_write_wins demoEnv demoEncode_ne_nil
     (demoStore ["5f4d7600pub1", "5f4d7601aa", "5f4d7601bb"])
     (demoSelect "5f4d7601aa") (demoSelect "5f4d7601bb")
     { action := some "SELECT_SIRE", sire := some "5f4d7601aa" }
     { action := some "SELECT_SIRE", sire := some "5f4d7601bb" }
     "5f4d7601aa" "5f4d7601bb"
     (by decide) rfl rfl (by decide) rfl rfl (by decide) (by decide) (by decide)
     (by decide) (by decide) (by decide)).2.2⟩

/-- C11 (as amended). A transaction whose payload decodes to a value whose
properties can be read (any decoded value but `null`) and whose action is neither
`CREATE_COLLECTION` nor `SELECT_SIRE` (a value without action field included) is
rejected with the invalid-transaction error `Unknown action`; no call is made on
the context, so the store is neither read nor written. -/
theorem apply_rejects_unknown_action (E : Env) (txn : Txn) (σ : Store) (p : Payload)
    (hDec : E.decode txn.payload = Decoded.object p)
    (hCreate : p.action ≠ some "CREATE_COLLECTION")
    (hSelect : p.action ≠ some "SELECT_SIRE") :
    apply E txn (freshContext σ) =
      ({ store := σ, log := [] },
       Except.error (Failure.invalidTransaction (some "Unknown action"))) :=
  apply_unknown E txn (freshContext σ) p hDec hCreate hSelect

theorem apply_rejects_unknown_action_witness :
    demoEnv.decode demoNoAction.payload = Decoded.object { action := none, sire := none } ∧
      (none : Option String) ≠ some "CREATE_COLLECTION" ∧
      (none : Option String) ≠ some "SELECT_SIRE" ∧
      apply demoEnv demoNoAction (freshContext (demoStore ["5f4d7600pub1"])) =
        ({ store := demoStore ["5f4d7600pub1"], log := [] },
         Except.error (Failure.invalidTransaction (some "Unknown action"))) :=
  ⟨by decide, by decide, by decide,
   apply_rejects_unknown_action demoEnv demoNoAction (demoStore ["5f4d7600pub1"])
     { action := none, sire := none } (by decide) (by decide) (by decide)⟩

/-- C11 (as stated, refuted). A payload that decodes without throwing to `null`
has no action field, yet `apply` does not fail with `Unknown action`: reading
`payload.action` throws inside the `try` block and the error is
`Unable to decode payload`. -/
theorem null_payload_is_not_unknown_action :
    demoEnv.decode demoNull.payload = Decoded.null ∧
    (apply demoEnv demoNull (freshContext (demoStore ["5f4d7600pub1"]))).2 =
      Except.error (Failure.invalidTransaction (some "Unable to decode payload")) ∧
    (apply demoEnv demoNull (freshContext (demoStore ["5f4d7600pub1"]))).2 ≠
      Except.error (Failure.invalidTransaction (some "Unknown action")) := by
  have hApply := apply_undecodable demoEnv demoNull
    (freshContext (demoStore ["5f4d7600pub1"])) (Or.inr (by decide))
  refine ⟨by decide, by rw [hApply], ?_⟩
  rw [hApply]
  intro h
  simp at h

/-- C12. A transaction whose payload bytes make `decode` throw is rejected with
the invalid-transaction error `Unable to decode payload`; no call is made on the
context, so the store is neither read nor written. -/
theorem apply_rejects_undecodable_payload (E : Env) (txn : Txn) (σ : Store)
    (hDec : E.decode txn.payload = Decoded.threw) :
    apply E txn (freshContext σ) =
      ({ store := σ, log := [] },
       Except.error (Failure.invalidTransaction (some "Unable to decode payload"))) :=
  apply_undecodable E txn (freshContext σ) (Or.inl hDec)

theorem apply_rejects_undecodable_payload_witness :
    demoEnv.decode demoGarbled.payload = Decoded.threw ∧
      apply demoEnv demoGarbled (freshContext (demoStore ["5f4d7600pub1"])) =
        ({ store := demoStore ["5f4d7600pub1"], log := [] },
         Except.error (Failure.invalidTransaction (some "Unable to decode payload"))) :=
  ⟨by decide,
   apply_rejects_undecodable_payload demoEnv demoGarbled (demoStore ["5f4d7600pub1"])
     (by decide)⟩

/-- C13. The handler evaluated on two SELECT_SIRE transactions of the same signer
and sire: in a store where the signer has no collection, and in a store where the
signer has a collection but the sire address holds no data.  Both calls end with
the `InvalidTransaction` raised without a message, so the two conditions are
reported with the same (absent) reason. -/
theorem noCollection_and_sireNotFound_share_reason :
    (apply demoEnv (demoSelect "5f4d7601bb") (freshContext emptyStore)).2 =
      Except.error (Failure.invalidTransaction none) ∧
    (apply demoEnv (demoSelect "5f4d7601bb")
      (freshContext (demoStore ["5f4d7600pub1"]))).2 =
      Except.error (Failure.invalidTransaction none) :=
  ⟨congrArg Prod.snd
     (apply_select_rejected demoEnv (demoSelect "5f4d7601bb") emptyStore
       { action := some "SELECT_SIRE", sire := some "5f4d7601bb" }
       (by decide) rfl (Or.inl (by decide))),
   congrArg Prod.snd
     (apply_select_missing demoEnv (demoSelect "5f4d7601bb") (demoStore ["5f4d7600pub1"])
       { action := some "SELECT_SIRE", sire := some "5f4d7601bb" } "5f4d7601bb"
       (by decide) rfl rfl (by decide) (by decide) (by decide))⟩

/-- C14. For every transaction and store, the calls one invocation of `apply`
makes on the context are either `getState` calls followed by exactly one
`setState` call, which is the last call, and then the invocation succeeds; or
`getState` calls only (possibly none), and then the invocation fails. -/
theorem apply_single_trailing_setState (E : Env) (txn : Txn) (σ : Store) :
    (∃ (reads : List StoreOp) (update : Obj) (written : List Address),
      (apply E txn (freshContext σ)).1.log = reads ++ [StoreOp.setState update] ∧
      (∀ op ∈ reads, ∃ addresses, op = StoreOp.getState addresses) ∧
      (apply E txn (freshContext σ)).2 = Except.ok written) ∨
    ((∀ op ∈ (apply E txn (freshContext σ)).1.log,
        ∃ addresses, op = StoreOp.getState addresses) ∧
      ∃ failure, (apply E txn (freshContext σ)).2 = Except.error failure) := by
  cases hDec : E.decode txn.payload with
  | threw =>
    right
    rw [apply_undecodable E txn _ (Or.inl hDec)]
    exact ⟨by simp [freshContext], _, rfl⟩
  | null =>
    right
    rw [apply_undecodable E txn _ (Or.inr hDec)]
    exact ⟨by simp [freshContext], _, rfl⟩
  | object p =>
    rcases apply_object_cases E txn σ p hDec with
      ⟨_, _, h⟩ | ⟨_, _, h⟩ | ⟨_, _, h⟩ | ⟨_, _, h⟩ | ⟨_, a, _, _, _, _, h⟩ |
      ⟨_, a, _, _, _, _, h⟩ <;> rw [h]
    · right
      exact ⟨by simp [freshContext], _, rfl⟩
    · right
      exact ⟨by simp, _, rfl⟩
    · left
      exact ⟨[StoreOp.getState [E.getCollectionAddress txn.signerPublicKey]], _, _, rfl,
        by simp, rfl⟩
    · right
      exact ⟨by simp, _, rfl⟩
    · right
      exact ⟨by simp, _, rfl⟩
    · left
      exact ⟨[StoreOp.getState [E.getCollectionAddress txn.signerPublicKey],
          StoreOp.getState [a],
          StoreOp.getState [E.getSireAddress txn.signerPublicKey]], _, _, rfl,
        by simp, rfl⟩

/-- C15. Once a CREATE_COLLECTION transaction of signer `pk` has succeeded (from
any store, so in particular from every store reachable from the empty one), the
data at `getCollectionAddress(pk)` is the encoded collection record and stays
exactly that after any sequence of later transactions, of any signer and kind;
and every later CREATE_COLLECTION whose signer has the same collection address
is rejected, so no second collection record is ever written for that address.
The address codec is assumed to keep collection addresses apart from moji and
sire-listing addresses, and the payload codec to encode every resource to a
non-empty buffer. -/
theorem collection_record_is_permanent (E : Env)
    (hEnc : ∀ r, E.encode r ≠ [])
    (hCM : ∀ pk pk' d, E.getCollectionAddress pk ≠ E.getMojiAddress pk' d)
    (hCS : ∀ pk pk', E.getCollectionAddress pk ≠ E.getSireAddress pk')
    (σ : Store) (create : Txn) (p : Payload)
    (hDec : E.decode create.payload = Decoded.object p)
    (hAct : p.action = some "CREATE_COLLECTION")
    (hOk : ∃ r, (apply E create (freshContext σ)).2 = Except.ok r)
    (later : List Txn) :
    commitAll E (commit E σ create) later (E.getCollectionAddress create.signerPublicKey) =
      E.encode (Resource.collection
        { key := create.signerPublicKey,
          moji := getMojiAddressses E create.signerPublicKey create.signature }) ∧
    ∀ (again : Txn) (q : Payload),
      E.decode again.payload = Decoded.object q →
      q.action = some "CREATE_COLLECTION" →
      E.getCollectionAddress again.signerPublicKey =
        E.getCollectionAddress create.signerPublicKey →
      apply E again (freshContext (commitAll E (commit E σ create) later)) =
        ({ store := commitAll E (commit E σ create) later,
           log := [StoreOp.getState [E.getCollectionAddress create.signerPublicKey]] },
         Except.error (Failure.invalidTransaction (some "Owner already exists"))) := by
  have hNew : σ (E.getCollectionAddress create.signerPublicKey) = [] := by
    by_contra hOwn
    obtain ⟨r, hr⟩ := hOk
    rw [apply_create_exists E create σ p hDec hAct hOwn] at hr
    cases hr
  have hWritten : commit E σ create (E.getCollectionAddress create.signerPublicKey) =
      E.encode (Resource.collection
        { key := create.signerPublicKey,
          moji := getMojiAddressses E create.signerPublicKey create.signature }) := by
    unfold commit
    rw [apply_create_new E create σ p hDec hAct hNew]
    simp only [writeAll_apply,
      collectionUpdate_collection_entry E create (fun d _ => hCM _ _ _), Option.getD_some]
  have hOwn : commit E σ create (E.getCollectionAddress create.signerPublicKey) ≠ [] := by
    rw [hWritten]
    exact hEnc _
  have hKept := commitAll_collection_kept E hCM hCS create.signerPublicKey later _ hOwn
  refine ⟨by rw [hKept, hWritten], ?_⟩
  intro again q hDec2 hAct2 hSame
  have hStill : commitAll E (commit E σ create) later
      (E.getCollectionAddress again.signerPublicKey) ≠ [] := by
    rw [hSame, hKept]
    exact hOwn
  rw [apply_create_exists E again _ q hDec2 hAct2 hStill, hSame]

theorem collection_record_is_permanent_witness :
    (∀ r, demoEnv.encode r ≠ []) ∧
      (∀ pk pk' d, demoEnv.getCollectionAddress pk ≠ demoEnv.getMojiAddress pk' d) ∧
      (∀ pk pk', demoEnv.getCollectionAddress pk ≠ demoEnv.getSireAddress pk') ∧
      demoEnv.decode demoCreate.payload
        = Decoded.object { action := some "CREATE_COLLECTION", sire := none } ∧
      (∃ r, (apply demoEnv demoCreate (freshContext emptyStore)).2 = Except.ok r) ∧
      commitAll demoEnv (commit demoEnv emptyStore demoCreate)
          [demoSelect "5f4d7600pub1", demoCreateAgain]
          (demoEnv.getCollectionAddress demoCreate.signerPublicKey) =
        demoEnv.encode (Resource.collection
          { key := demoCreate.signerPublicKey,
            moji := getMojiAddressses demoEnv demoCreate.signerPublicKey
              demoCreate.signature }) :=
  ⟨demoEncode_ne_nil, demo_collection_ne_moji, demo_collection_ne_sire, by decide,
   ⟨_, congrArg Prod.snd (apply_create_new demoEnv demoCreate emptyStore
     { action := some "CREATE_COLLECTION", sire := none } (by decide) rfl (by decide))⟩,
   (collection_record_is_permanent demoEnv demoEncode_ne_nil demo_collection_ne_moji
     demo_collection_ne_sire emptyStore demoCreate
     { action := some "CREATE_COLLECTION", sire := none } (by decide) rfl
     ⟨_, congrArg Prod.snd (apply_create_new demoEnv demoCreate emptyStore
       { action := some "CREATE_COLLECTION", sire := none } (by decide) rfl (by decide))⟩
     [demoSelect "5f4d7600pub1", demoCreateAgain]).1⟩

/-- C16. Every entry of the update that a successful CREATE_COLLECTION passes to
`setState` is either the collection entry or an encoded moji `m` of `createMojies`
stored at `getMojiAddress(m.owner, m.dna)`; and after the transaction (from any
store, so in particular from every store reachable from the empty one) the data
at each of its moji addresses is left unchanged by the later transactions.  The
address codec is assumed to keep moji addresses apart from collection and
sire-listing addresses and to have no collision among the transactions at hand
(a later transaction that computes one of these moji addresses has the same
signer), and the payload codec to encode every resource to a non-empty buffer. -/
theorem moji_record_is_permanent (E : Env)
    (hEnc : ∀ r, E.encode r ≠ [])
    (hCM : ∀ pk pk' d, E.getCollectionAddress pk ≠ E.getMojiAddress pk' d)
    (hMS : ∀ pk d pk', E.getMojiAddress pk d ≠ E.getSireAddress pk')
    (σ : Store) (create : Txn) (p : Payload)
    (hDec : E.decode create.payload = Decoded.object p)
    (hAct : p.action = some "CREATE_COLLECTION")
    (hOk : ∃ r, (apply E create (freshContext σ)).2 = Except.ok r)
    (later : List Txn)
    (hOwner : ∀ t ∈ later, ∀ d ∈ dnaChain E create.signature,
      ∀ d' ∈ dnaChain E t.signature,
      E.getMojiAddress create.signerPublicKey d = E.getMojiAddress t.signerPublicKey d' →
        t.signerPublicKey = create.signerPublicKey) :
    (∃ update : Obj,
      (apply E create (freshContext σ)).1.log =
        [StoreOp.getState [E.getCollectionAddress create.signerPublicKey],
         StoreOp.setState update] ∧
      ∀ entry ∈ update,
        entry = (E.getCollectionAddress create.signerPublicKey,
          E.encode (Resource.collection
            { key := create.signerPublicKey,
              moji := getMojiAddressses E create.signerPublicKey create.signature })) ∨
        ∃ m ∈ createMojies E create.signature create.signerPublicKey,
          entry = (E.getMojiAddress m.owner m.dna, E.encode (Resource.moji m))) ∧
    ∀ d ∈ dnaChain E create.signature,
      commitAll E (commit E σ create) later (E.getMojiAddress create.signerPublicKey d) =
        commit E σ create (E.getMojiAddress create.signerPublicKey d) := by
  have hNew : σ (E.getCollectionAddress create.signerPublicKey) = [] := by
    by_contra hOwn
    obtain ⟨r, hr⟩ := hOk
    rw [apply_create_exists E create σ p hDec hAct hOwn] at hr
    cases hr
  have hApply := apply_create_new E create σ p hDec hAct hNew
  constructor
  · refine ⟨collectionUpdate E create, by rw [hApply], ?_⟩
    intro entry hMem
    unfold collectionUpdate at hMem
    rcases mem_objSet _ _ _ _ hMem with h | hMem
    · exact Or.inr ⟨mojie3 E create.signature create.signerPublicKey,
        by simp [createMojies], h⟩
    rcases mem_objSet _ _ _ _ hMem with h | hMem
    · exact Or.inr ⟨mojie2 E create.signature create.signerPublicKey,
        by simp [createMojies], h⟩
    rcases mem_objSet _ _ _ _ hMem with h | hMem
    · exact Or.inr ⟨mojie1 E create.signature create.signerPublicKey,
        by simp [createMojies], h⟩
    rcases mem_objSet _ _ _ _ hMem with h | hMem
    · exact Or.inl h
    · cases hMem
  · intro d hd
    have hOwn : commit E σ create (E.getCollectionAddress create.signerPublicKey) ≠ [] := by
      unfold commit
      rw [hApply]
      obtain ⟨r, hr⟩ := collectionUpdate_at_collection E create
      simp only [writeAll_apply, hr, Option.getD_some]
      exact hEnc r
    exact commitAll_moji_kept E hEnc hCM hMS create.signerPublicKey d later
      (fun t ht d' hd' hEq => hOwner t ht d hd d' hd' hEq) _ hOwn

theorem moji_record_is_permanent_witness :
    (∀ r, fixedEnv.encode r ≠ []) ∧
      (∀ pk pk' d, fixedEnv.getCollectionAddress pk ≠ fixedEnv.getMojiAddress pk' d) ∧
      (∀ pk d pk', fixedEnv.getMojiAddress pk d ≠ fixedEnv.getSireAddress pk') ∧
      fixedEnv.decode demoCreate.payload
        = Decoded.object { action := some "CREATE_COLLECTION", sire := none } ∧
      (∃ r, (apply fixedEnv demoCreate (freshContext emptyStore)).2 = Except.ok r) ∧
      (∀ t ∈ [demoSelect "5f4d760115b00000884000000000000000000000000000000000000000000000000000",
          demoCreateOther, demoCreateAgain],
        ∀ d ∈ dnaChain fixedEnv demoCreate.signature,
        ∀ d' ∈ dnaChain fixedEnv t.signature,
        fixedEnv.getMojiAddress demoCreate.signerPublicKey d
            = fixedEnv.getMojiAddress t.signerPublicKey d' →
          t.signerPublicKey = demoCreate.signerPublicKey) ∧
      ∀ d ∈ dnaChain fixedEnv demoCreate.signature,
        commitAll fixedEnv (commit fixedEnv emptyStore demoCreate)
            [demoSelect "5f4d760115b00000884000000000000000000000000000000000000000000000000000",
             demoCreateOther, demoCreateAgain]
            (fixedEnv.getMojiAddress demoCreate.signerPublicKey d) =
          commit fixedEnv emptyStore demoCreate
            (fixedEnv.getMojiAddress demoCreate.signerPublicKey d) :=
  ⟨fixedEncode_ne_nil, fixed_collection_ne_moji, fixed_moji_ne_sire, by decide,
   ⟨_, congrArg Prod.snd (apply_create_new fixedEnv demoCreate emptyStore
     { action := some "CREATE_COLLECTION", sire := none } (by decide) rfl (by decide))⟩,
   by decide,
   (moji_record_is_permanent fixedEnv fixedEncode_ne_nil fixed_collection_ne_moji
     fixed_moji_ne_sire emptyStore demoCreate
     { action := some "CREATE_COLLECTION", sire := none } (by decide) rfl
     ⟨_, congrArg Prod.snd (apply_create_new fixedEnv demoCreate emptyStore
       { action := some "CREATE_COLLECTION", sire := none } (by decide) rfl (by decide))⟩
     [demoSelect "5f4d760115b00000884000000000000000000000000000000000000000000000000000",
      demoCreateOther, demoCreateAgain]
     (by decide)).2⟩

/-- C17. In every store reached from the empty store by a sequence of calls of
`apply`, whenever the data at `getSireAddress(pk)` is an encoded sire listing,
the owner of that listing is `pk`, the data at `getCollectionAddress(pk)` is
non-empty and the data at the address in its sire field is non-empty.  The
payload codec is assumed to encode every resource to a non-empty buffer and to
give a sire listing an encoding no other resource has, and the address codec to
have no collision among the transactions at hand (a signer in the sequence with
the sire-listing address of `pk` is `pk`). -/
theorem stored_listings_are_justified (E : Env)
    (hEnc : ∀ r, E.encode r ≠ [])
    (hListing : ∀ r l, E.encode r = E.encode (Resource.sireListing l) →
      r = Resource.sireListing l)
    (history : List Txn) (pk : String) (l : SireListing)
    (hSire : ∀ t ∈ history,
      E.getSireAddress t.signerPublicKey = E.getSireAddress pk → t.signerPublicKey = pk)
    (hAt : commitAll E emptyStore history (E.getSireAddress pk) =
      E.encode (Resource.sireListing l)) :
    l.owner = pk ∧
    commitAll E emptyStore history (E.getCollectionAddress pk) ≠ [] ∧
    commitAll E emptyStore history l.sire ≠ [] :=
  commitAll_keeps_listings E hEnc hListing pk history hSire l hAt

theorem stored_listings_are_justified_witness :
    (∀ r, fixedEnv.encode r ≠ []) ∧
      (∀ r l, fixedEnv.encode r = fixedEnv.encode (Resource.sireListing l) →
        r = Resource.sireListing l) ∧
      (∀ t ∈ [demoCreate, demoCreateOther,
          demoSelect "5f4d760015b00000000000000000000000000000000000000000000000000000000000"],
        fixedEnv.getSireAddress t.signerPublicKey = fixedEnv.getSireAddress "pub1" →
          t.signerPublicKey = "pub1") ∧
      commitAll fixedEnv emptyStore
          [demoCreate, demoCreateOther,
           demoSelect "5f4d760015b00000000000000000000000000000000000000000000000000000000000"]
          (fixedEnv.getSireAddress "pub1") =
        fixedEnv.encode (Resource.sireListing
          { owner := "pub1",
            sire := "5f4d760015b00000000000000000000000000000000000000000000000000000000000" }) ∧
      commitAll fixedEnv emptyStore
          [demoCreate, demoCreateOther,
           demoSelect "5f4d760015b00000000000000000000000000000000000000000000000000000000000"]
          (fixedEnv.getCollectionAddress "pub1") ≠ [] ∧
      commitAll fixedEnv emptyStore
          [demoCreate, demoCreateOther,
           demoSelect "5f4d760015b00000000000000000000000000000000000000000000000000000000000"]
          "5f4d760015b00000000000000000000000000000000000000000000000000000000000" ≠ [] :=
  ⟨fixedEncode_ne_nil, demoEncode_listing, by decide, by decide,
   (stored_listings_are_justified fixedEnv fixedEncode_ne_nil demoEncode_listing
     [demoCreate, demoCreateOther,
      demoSelect "5f4d760015b00000000000000000000000000000000000000000000000000000000000"]
     "pub1"
     { owner := "pub1",
       sire := "5f4d760015b00000000000000000000000000000000000000000000000000000000000" }
     (by decide) (by decide)).2⟩

/-- C18 (as amended). When a SELECT_SIRE transaction succeeds, the payload carries
a non-empty sire address `a`, the state holds non-empty data at `a`, and the one
entry written is the encoded listing whose sire is exactly `a`; the kind of
record stored at `a` is not examined. -/
theorem selectSire_success_needs_data_at_sire (E : Env) (txn : Txn) (σ : Store)
    (p : Payload)
    (hDec : E.decode txn.payload = Decoded.object p)
    (hAct : p.action = some "SELECT_SIRE")
    (hOk : ∃ r, (apply E txn (freshContext σ)).2 = Except.ok r) :
    ∃ a, p.sire = some a ∧ a ≠ "" ∧ σ a ≠ [] ∧
      (apply E txn (freshContext σ)).1.log =
        [StoreOp.getState [E.getCollectionAddress txn.signerPublicKey],
         StoreOp.getState [a],
         StoreOp.getState [E.getSireAddress txn.signerPublicKey],
         StoreOp.setState
           [(E.getSireAddress txn.signerPublicKey,
             E.encode (Resource.sireListing
               { owner := txn.signerPublicKey, sire := a }))]] := by
  obtain ⟨r, hr⟩ := hOk
  have hNotCreate : p.action ≠ some "CREATE_COLLECTION" := by
    rw [hAct]
    decide
  rcases apply_object_cases E txn σ p hDec with
    ⟨_, h, _⟩ | ⟨h, _, _⟩ | ⟨h, _, _⟩ | ⟨_, _, h⟩ | ⟨_, a, _, _, _, _, h⟩ |
    ⟨_, a, hSire, ha, _, hData, h⟩
  · exact absurd hAct h
  · exact absurd h hNotCreate
  · exact absurd h hNotCreate
  · rw [h] at hr
    cases hr
  · rw [h] at hr
    cases hr
  · exact ⟨a, hSire, ha, hData, by rw [h]⟩

theorem selectSire_success_needs_data_at_sire_witness :
    demoEnv.decode (demoSelect "5f4d7601bb").payload
        = Decoded.object { action := some "SELECT_SIRE", sire := some "5f4d7601bb" } ∧
      (∃ r, (apply demoEnv (demoSelect "5f4d7601bb")
        (freshContext (demoStore ["5f4d7600pub1", "5f4d7601bb"]))).2 = Except.ok r) ∧
      ∃ a, (some "5f4d7601bb" : Option String) = some a ∧ a ≠ "" ∧
        demoStore ["5f4d7600pub1", "5f4d7601bb"] a ≠ [] ∧
        (apply demoEnv (demoSelect "5f4d7601bb")
          (freshContext (demoStore ["5f4d7600pub1", "5f4d7601bb"]))).1.log =
          [StoreOp.getState
             [demoEnv.getCollectionAddress (demoSelect "5f4d7601bb").signerPublicKey],
           StoreOp.getState [a],
           StoreOp.getState
             [demoEnv.getSireAddress (demoSelect "5f4d7601bb").signerPublicKey],
           StoreOp.setState
             [(demoEnv.getSireAddress (demoSelect "5f4d7601bb").signerPublicKey,
               demoEnv.encode (Resource.sireListing
                 { owner := (demoSelect "5f4d7601bb").signerPublicKey, sire := a }))]] :=
  ⟨by decide,
   ⟨_, congrArg Prod.snd (apply_select_found demoEnv (demoSelect "5f4d7601bb")
     (demoStore ["5f4d7600pub1", "5f4d7601bb"])
     { action := some "SELECT_SIRE", sire := some "5f4d7601bb" } "5f4d7601bb"
     (by decide) rfl rfl (by decide) (by decide) (by decide))⟩,
   selectSire_success_needs_data_at_sire demoEnv (demoSelect "5f4d7601bb")
     (demoStore ["5f4d7600pub1", "5f4d7601bb"])
     { action := some "SELECT_SIRE", sire := some "5f4d7601bb" } (by decide) rfl
     ⟨_, congrArg Prod.snd (apply_select_found demoEnv (demoSelect "5f4d7601bb")
       (demoStore ["5f4d7600pub1", "5f4d7601bb"])
       { action := some "SELECT_SIRE", sire := some "5f4d7601bb" } "5f4d7601bb"
       (by decide) rfl rfl (by decide) (by decide) (by decide))⟩⟩

/-- C18 (as stated, refuted). In the store left by a CREATE_COLLECTION of signer
`pub1`, a SELECT_SIRE of `pub1` naming the signer's own collection address as
sire succeeds and writes a listing with that sire, although the record held at
that address is the encoded collection and not the encoding of any moji. -/
theorem selectSire_accepts_collection_as_sire :
    (apply demoEnv (demoSelect "5f4d7600pub1")
        (freshContext (commit demoEnv emptyStore demoCreate))).2 =
      Except.ok [demoEnv.getSireAddress "pub1"] ∧
    commitAll demoEnv emptyStore [demoCreate, demoSelect "5f4d7600pub1"]
        (demoEnv.getSireAddress "pub1") =
      demoEnv.encode (Resource.sireListing { owner := "pub1", sire := "5f4d7600pub1" }) ∧
    commit demoEnv emptyStore demoCreate "5f4d7600pub1" =
      demoEnv.encode (Resource.collection
        { key := "pub1", moji := getMojiAddressses demoEnv "pub1" "abc123" }) ∧
    ∀ m : Moji,
      commit demoEnv emptyStore demoCreate "5f4d7600pub1" ≠
        demoEnv.encode (Resource.moji m) := by
  have hColl : commit demoEnv emptyStore demoCreate "5f4d7600pub1" =
      demoEnv.encode (Resource.collection
        { key := "pub1", moji := getMojiAddressses demoEnv "pub1" "abc123" }) := by
    decide
  refine ⟨?_, by decide, hColl, ?_⟩
  · exact congrArg Prod.snd
      (apply_select_found demoEnv (demoSelect "5f4d7600pub1")
        (commit demoEnv emptyStore demoCreate)
        { action := some "SELECT_SIRE", sire := some "5f4d7600pub1" } "5f4d7600pub1"
        (by decide) rfl rfl (by decide) (by decide) (by decide))
  · intro m hm
    rw [hColl] at hm
    simp [demoEnv, demoEncode] at hm

/-- C19 (as amended). `apply` fails with `Unable to decode payload` exactly when
`decode` throws or returns `null`; for every decoded value whose properties can
be read it never fails with that error. -/
theorem unable_to_decode_iff (E : Env) (txn : Txn) (σ : Store) :
    (apply E txn (freshContext σ)).2 =
        Except.error (Failure.invalidTransaction (some "Unable to decode payload")) ↔
      (E.decode txn.payload = Decoded.threw ∨ E.decode txn.payload = Decoded.null) := by
  constructor
  · intro hErr
    cases hDec : E.decode txn.payload with
    | threw => exact Or.inl rfl
    | null => exact Or.inr rfl
    | object p =>
      exfalso
      rcases apply_object_cases E txn σ p hDec with
        ⟨_, _, h⟩ | ⟨_, _, h⟩ | ⟨_, _, h⟩ | ⟨_, _, h⟩ | ⟨_, a, _, _, _, _, h⟩ |
        ⟨_, a, _, _, _, _, h⟩ <;> rw [h] at hErr <;> simp at hErr
  · intro hDec
    rw [apply_undecodable E txn _ hDec]

/-- C19 (as stated, refuted). A payload for which `decode` returns `null` without
throwing: reading `payload.action` throws inside the `try` block, and `apply`
fails with `Unable to decode payload`. -/
theorem unable_to_decode_without_decode_failure :
    demoEnv.decode demoNull.payload ≠ Decoded.threw ∧
    (apply demoEnv demoNull (freshContext emptyStore)).2 =
      Except.error (Failure.invalidTransaction (some "Unable to decode payload")) :=
  ⟨by decide, congrArg Prod.snd (apply_undecodable demoEnv demoNull _ (Or.inr (by decide)))⟩

/-- C20. A SELECT_SIRE transaction whose payload has no sire field, or the empty
string as sire, is rejected with an invalid-transaction error (raised without a
message) in every store, also one where the signer has a collection; the only
call made on the context is the `getState` of the signer's collection address:
the sire address is never read and no `setState` is issued. -/
theorem selectSire_rejects_falsy_sire (E : Env) (txn : Txn) (σ : Store) (p : Payload)
    (hDec : E.decode txn.payload = Decoded.object p)
    (hAct : p.action = some "SELECT_SIRE")
    (hSire : p.sire = none ∨ p.sire = some "") :
    apply E txn (freshContext σ) =
      ({ store := σ,
         log := [StoreOp.getState [E.getCollectionAddress txn.signerPublicKey]] },
       Except.error (Failure.invalidTransaction none)) := by
  refine apply_select_rejected E txn σ p hDec hAct (Or.inr ?_)
  rcases hSire with h | h <;> simp [h, truthy]

theorem selectSire_rejects_falsy_sire_witness :
    demoEnv.decode demoSelectNoSire.payload
        = Decoded.object { action := some "SELECT_SIRE", sire := none } ∧
      demoStore ["5f4d7600pub1"]
        (demoEnv.getCollectionAddress demoSelectNoSire.signerPublicKey) ≠ [] ∧
      apply demoEnv demoSelectNoSire (freshContext (demoStore ["5f4d7600pub1"])) =
        ({ store := demoStore ["5f4d7600pub1"],
           log := [StoreOp.getState
             [demoEnv.getCollectionAddress demoSelectNoSire.signerPublicKey]] },
         Except.error (Failure.invalidTransaction none)) :=
  ⟨by decide, by decide,
   selectSire_rejects_falsy_sire demoEnv demoSelectNoSire (demoStore ["5f4d7600pub1"])
     { action := some "SELECT_SIRE", sire := none } (by decide) rfl (Or.inl rfl)⟩

end Cryptomoji
